import Mathlib

/-!
Verification development for the Drishti client-side safety app.

The JavaScript sources are shallowly embedded: pure helpers become Lean
functions; stateful procedures become explicit state-passing functions;
outcomes of external managed services (Firebase, Supabase, the OAuth token
endpoint, the browser media APIs) are inputs to the embedded procedures,
drawn from small "environment" records, so that every control path of the
source is a concrete, executable case of the Lean definition.  Fallible
code returns `Except`.  JavaScript truthiness on strings and string-valued
options is modelled explicitly (`null`/`undefined` and `""` are falsy).
-/

namespace Drishti

/-- Truthiness of an optional JS string value: `undefined`, `null` and the
empty string are falsy; every other string is truthy. -/
def jsFalsy : Option String → Bool
  | none => true
  | some s => s == ""

/-- JS `x || d` for string-valued `x` with default `d`. -/
def jsOrStr (x : Option String) (d : String) : String :=
  if jsFalsy x then d else x.getD ""

/-- JS `String.prototype.trim`: strip leading and trailing whitespace.
(Implemented on the character list so that it evaluates inside the
kernel.) -/
def jsTrim (s : String) : String :=
  String.mk (((s.toList.dropWhile Char.isWhitespace).reverse.dropWhile
    Char.isWhitespace).reverse)

/-- JS `String.prototype.toLowerCase` (ASCII, which is all the sources
feed it). -/
def jsToLower (s : String) : String := String.mk (s.toList.map Char.toLower)

/-- Split a character list at every occurrence of `sep` (the behaviour of
JS `String.prototype.split` with a one-character separator). -/
def splitOnCharAux (sep : Char) : List Char → List Char → List (List Char)
  | [], acc => [acc.reverse]
  | c :: rest, acc =>
      if c == sep then acc.reverse :: splitOnCharAux sep rest []
      else splitOnCharAux sep rest (c :: acc)

/-- Split a character list at a separator character. -/
def splitOnChar (sep : Char) (cs : List Char) : List (List Char) :=
  splitOnCharAux sep cs []

/-- Whether the second list is an initial segment of the first. -/
def listStarts : List Char → List Char → Bool
  | _, [] => true
  | [], _ :: _ => false
  | c :: cs, p :: ps => c == p && listStarts cs ps

/-- JS `String.prototype.startsWith`. -/
def jsStartsWith (s pre : String) : Bool := listStarts s.toList pre.toList

/-! ## `ensureSupabaseUser` (supabaseClient.js lines 46-106, identically in
`src/unnamed/part_001` lines 83-143)

The relational store is modelled as a list of `users` rows; the
`select ... eq('user_id', ...) ... maybeSingle()` step is modelled by the
store's contract: it returns the stored row with the matching `user_id`
when one exists and `null` otherwise.  `new Date().toISOString()` is the
`now` argument. -/

/-- A row of the Supabase `users` table, with the exact columns the insert
payload of `ensureSupabaseUser` carries. -/
structure UserRow where
  user_id : String
  name : String
  email : String
  phone : String
  role : String
  joined_at : String
deriving DecidableEq, Repr

/-- The argument object of `ensureSupabaseUser`; absent properties are
`none`. -/
structure UserPayloadIn where
  user_id : Option String
  name : Option String
  email : Option String
  phone : Option String
  role : Option String
deriving DecidableEq, Repr

/-- The result object of `ensureSupabaseUser` (its `data` field is dropped:
it only echoes the inserted `user_id`). -/
structure EnsureResult where
  status : String
  user_id : String
deriving DecidableEq, Repr

/-- The insert payload built at lines 66-73: trimmed name and phone,
lowercased-trimmed email, role defaulting to `citizen`, `joined_at` from
`new Date().toISOString()`. -/
def ensurePayload (now : String) (user : UserPayloadIn) : UserRow :=
  { user_id := user.user_id.getD ""
    name := jsTrim (user.name.getD "")
    email := jsTrim (jsToLower (user.email.getD ""))
    phone := jsTrim (user.phone.getD "")
    role := if jsFalsy user.role then "citizen" else user.role.getD ""
    joined_at := now }

/-- Embedding of `ensureSupabaseUser(user)`: validation, existence check by
`user_id`, then insert.  Returns the result object together with the users
table after the call. -/
def ensureSupabaseUser (now : String) (user : UserPayloadIn) (db : List UserRow) :
    Except String (EnsureResult × List UserRow) :=
  if jsFalsy user.user_id then .error "user_id is required"
  else if jsFalsy user.name || jsFalsy user.email || jsFalsy user.phone then
    .error "name, email, phone are required"
  else
    let payload := ensurePayload now user
    match db.find? (fun r => r.user_id == payload.user_id) with
    | some _ => .ok ({ status := "exists", user_id := payload.user_id }, db)
    | none => .ok ({ status := "inserted", user_id := payload.user_id }, db ++ [payload])

/-! ## PKCE helpers and the Google sign-in flow (GoogleSignIn.jsx, and the
`AuthCallback` page in `src/unnamed/part_000` lines 297-411)

`window.crypto.getRandomValues` and `crypto.subtle.digest('SHA-256', ...)`
are external browser services: the random words are an input and the hash is
an arbitrary function argument.  `btoa` is the standard base64 encoding of a
byte string, embedded below. -/

/-- The base64 alphabet used by `btoa`. -/
def base64Alphabet : List Char :=
  "ABCDEFGHIJKLMNOPQRSTUVWXYZabcdefghijklmnopqrstuvwxyz0123456789+/".toList

/-- The base64 digit for a 6-bit value. -/
def b64Char (n : Nat) : Char := base64Alphabet.getD n 'A'

/-- Standard base64 of a byte list (the behaviour of the browser `btoa` on
the byte string built in `base64UrlEncode`), including `=` padding. -/
def btoaChars : List Nat → List Char
  | [] => []
  | [a] => [b64Char (a / 4), b64Char (a % 4 * 16), '=', '=']
  | [a, b] => [b64Char (a / 4), b64Char (a % 4 * 16 + b / 16), b64Char (b % 16 * 4), '=']
  | a :: b :: c :: rest =>
      b64Char (a / 4) :: b64Char (a % 4 * 16 + b / 16) ::
      b64Char (b % 16 * 4 + c / 64) :: b64Char (c % 64) :: btoaChars rest

/-- Embedding of `base64UrlEncode` (GoogleSignIn.jsx lines 17-26):
`btoa(...)` then `+` -> `-`, `/` -> `_`, and the trailing `=` padding
stripped (`replace(/=+$/, '')`). -/
def base64UrlEncode (bytes : List Nat) : String :=
  let cs := (btoaChars bytes).map fun c =>
    if c == '+' then '-' else if c == '/' then '_' else c
  String.mk (cs.reverse.dropWhile (fun c => c == '=')).reverse

/-- JS `n.toString(16)`: lowercase hexadecimal digits. -/
def hexString (n : Nat) : String := String.mk (Nat.toDigits 16 n)

/-- JS `s.substr(-2)`: the last two characters (the whole string when it is
shorter). -/
def lastTwo (s : String) : String :=
  String.mk (s.toList.reverse.take 2).reverse

/-- One element of the verifier: `('0' + dec.toString(16)).substr(-2)`
(GoogleSignIn.jsx line 7). -/
def verifierChunk (dec : Nat) : String := lastTwo ("0" ++ hexString dec)

/-- Embedding of `generateCodeVerifier` (GoogleSignIn.jsx lines 4-8): the
random words delivered by `crypto.getRandomValues` are the argument. -/
def generateCodeVerifier (randoms : List Nat) : String :=
  String.join (randoms.map verifierChunk)

/-- The OAuth client id used by `GoogleSignIn.jsx` (line 28). -/
def googleClientIdSignIn : String :=
  "1069463850395-r7tefqv5lucgbn9vnl322gaepqmvpb19.apps.googleusercontent.com"

/-- The OAuth client id used by the `AuthCallback` page
(`src/unnamed/part_000` line 301); note it differs from the sign-in page's. -/
def googleClientIdCallback : String :=
  "541486884869-mo97r52fhuqiurlf768qn756fpc82plq.apps.googleusercontent.com"

/-- The query parameters of the authorization URL built by `startAuth`
(GoogleSignIn.jsx lines 42-52). -/
structure AuthRequest where
  client_id : String
  redirect_uri : String
  response_type : String
  scope : String
  include_granted_scopes : String
  access_type : String
  prompt : String
  code_challenge : String
  code_challenge_method : String
deriving DecidableEq, Repr

/-- The observable outcome of `startAuth`: the value stored in
`sessionStorage['google_code_verifier']` and the authorization request the
browser is redirected to. -/
structure StartAuthResult where
  sessionVerifier : Option String
  request : AuthRequest
deriving DecidableEq, Repr

/-- Embedding of `startAuth` (GoogleSignIn.jsx lines 31-61).  `sha256` is
the browser digest, `randoms` the words from `crypto.getRandomValues`,
`origin` is `window.location.origin`. -/
def startAuth (sha256 : String → List Nat) (randoms : List Nat) (origin : String) :
    StartAuthResult :=
  let codeVerifier := generateCodeVerifier randoms
  let codeChallenge := base64UrlEncode (sha256 codeVerifier)
  { sessionVerifier := some codeVerifier
    request :=
      { client_id := googleClientIdSignIn
        redirect_uri := origin ++ "/auth/callback"
        response_type := "code"
        scope := "openid profile email"
        include_granted_scopes := "true"
        access_type := "offline"
        prompt := "consent"
        code_challenge := codeChallenge
        code_challenge_method := "S256" } }

/-- Body of the token-exchange POST built by `AuthCallback`
(`src/unnamed/part_000` lines 348-353). -/
structure TokenRequestBody where
  client_id : String
  grant_type : String
  code : String
  code_verifier : String
  redirect_uri : String
deriving DecidableEq, Repr

/-- Response of the token endpoint, as far as the callback reads it. -/
structure TokenResp where
  ok : Bool
  id_token : Option String
  access_token : Option String
deriving Repr

/-- Inputs of the `AuthCallback` effect: the query parameters of the
callback URL, the stored PKCE verifier, and the outcome of the token fetch
(an external service). -/
structure CallbackEnv where
  code : Option String
  error : Option String
  sessionVerifier : Option String
  tokenFetch : TokenRequestBody → Except String TokenResp

/-- Observable outcome of the `AuthCallback` effect: where it navigated,
the token request it sent (if any), and the `(id_token, access_token)` pair
persisted under `localStorage['google_user']` (if any). -/
structure CallbackResult where
  navigatedTo : String
  tokenRequest : Option TokenRequestBody
  storedUser : Option (Option String × Option String)
deriving Repr

/-- Embedding of the `AuthCallback` effect (`src/unnamed/part_000` lines
320-399): error param, missing code, and missing verifier each navigate to
`/login` without a token request; otherwise the exchange is attempted with
the stored verifier, and only a successful exchange stores the user and
navigates to `/welcome`. -/
def authCallback (env : CallbackEnv) (origin : String) : CallbackResult :=
  match env.error with
  | some _ => { navigatedTo := "/login", tokenRequest := none, storedUser := none }
  | none =>
  match env.code with
  | none => { navigatedTo := "/login", tokenRequest := none, storedUser := none }
  | some code =>
  match env.sessionVerifier with
  | none => { navigatedTo := "/login", tokenRequest := none, storedUser := none }
  | some codeVerifier =>
    let body : TokenRequestBody :=
      { client_id := googleClientIdCallback
        grant_type := "authorization_code"
        code := code
        code_verifier := codeVerifier
        redirect_uri := origin ++ "/auth/callback" }
    match env.tokenFetch body with
    | .error _ => { navigatedTo := "/login", tokenRequest := some body, storedUser := none }
    | .ok resp =>
        if resp.ok then
          { navigatedTo := "/welcome", tokenRequest := some body
            storedUser := some (resp.id_token, resp.access_token) }
        else
          { navigatedTo := "/login", tokenRequest := some body, storedUser := none }

/-! ## `login` (`src/unnamed/part_000` lines 71-209)

The validation regexes are embedded as decidable character-list checks; the
external services (`signInAnonymously`, `createOrUpdateUser`, the two
`ensureSupabaseUser` syncs) appear as outcome fields of `LoginEnv`. -/

/-- A character admitted by the regex class `[^\s@]`. -/
def emailPartChar (c : Char) : Bool := !c.isWhitespace && c != '@'

/-- Embedding of the test of `/^[^\s@]+@[^\s@]+\.[^\s@]+$/` (line 80):
exactly one `@`, a nonempty space-free local part, and a domain containing a
`.` with at least one admissible character on each side. -/
def emailOk (s : String) : Bool :=
  match splitOnChar '@' s.toList with
  | [l, d] =>
      !l.isEmpty && l.all emailPartChar && d.all emailPartChar &&
        ((d.drop 1).dropLast.contains '.')
  | _ => false

/-- `phone.replace(/[\s\-\(\)]/g, '')` (line 87). -/
def stripPhoneSeps (s : String) : String :=
  String.mk (s.toList.filter fun c =>
    !(c.isWhitespace || c == '-' || c == '(' || c == ')'))

/-- Embedding of the test of `/^[\+]?[1-9][\d]{0,15}$/` on the separator-
stripped phone (lines 86-87). -/
def phoneOk (s : String) : Bool :=
  let cs := (stripPhoneSeps s).toList
  let cs := match cs with
    | '+' :: rest => rest
    | l => l
  match cs with
  | c :: rest => c.isDigit && c != '0' && rest.all Char.isDigit && rest.length ≤ 15
  | [] => false

/-- The login form input. -/
structure LoginInput where
  name : String
  email : String
  phone : String
deriving DecidableEq, Repr

/-- Outcomes of the external services `login` calls, and `Date.now()`. -/
structure LoginEnv where
  authResult : Except String String
  firestoreSave : Except String Unit
  supaSyncBranch : Except String Unit
  supaSyncFinal : Except String Unit
  now : Nat
deriving Repr

/-- The user record `login` builds (`processedUserData`/`finalUserData`);
the timestamp fields (`createdAt`, `lastLogin`) and the constant status
fields are omitted as no claim reads them. -/
structure UserRecord where
  id : String
  name : String
  email : String
  phone : String
  firebaseUid : Option String
  isLocalUser : Bool
deriving DecidableEq, Repr

/-- The provider state `login` mutates: the `setUser` uid, the
`isAuthenticated` flag, the `safeguard_user_session` localStorage entry and
the `loading` flag. -/
structure AuthState where
  userUid : Option String
  isAuthenticated : Bool
  localSession : Option UserRecord
  loading : Bool
deriving DecidableEq, Repr

/-- The provider state before any login. -/
def initialAuthState : AuthState :=
  { userUid := none, isAuthenticated := false, localSession := none, loading := false }

/-- Embedding of `login(userData)`.  Validation failures and any exception
of the body are rethrown by the outer catch (after a toast), so they are
the `.error` results.  In the source, `const firebaseUser` (line 107) is
scoped to the inner `try` block of lines 105-139; the Firebase-success
branch at lines 165-176 runs outside that block and reads the identifier
`firebaseUser` again at `setUser(firebaseUser.user)`, where it is no longer
in scope, so that read raises a ReferenceError which the outer catch
rethrows before `setUser`/`setIsAuthenticated` run. -/
def login (inp : LoginInput) (env : LoginEnv) (st : AuthState) :
    Except String UserRecord × AuthState :=
  let st := { st with loading := true }
  if inp.name == "" || inp.email == "" || inp.phone == "" then
    (.error "Please fill in all required fields", { st with loading := false })
  else if !emailOk inp.email then
    (.error "Please enter a valid email address", { st with loading := false })
  else if !phoneOk inp.phone then
    (.error "Please enter a valid phone number", { st with loading := false })
  else
    let processed : UserRecord :=
      { id := "user_" ++ toString env.now
        name := jsTrim inp.name
        email := jsTrim (jsToLower inp.email)
        phone := jsTrim inp.phone
        firebaseUid := none
        isLocalUser := false }
    match env.authResult with
    | .ok _uid =>
        -- `finalUserData` gets the Firebase uid and `shouldUseFallback`
        -- stays false; `createOrUpdateUser` and the branch Supabase sync
        -- run inside their own try/catch (outcomes `env.firestoreSave`,
        -- `env.supaSyncBranch`) and cannot abort.  The else branch of
        -- `if (shouldUseFallback)` then reads the out-of-scope identifier
        -- `firebaseUser`, raising a ReferenceError rethrown by the outer
        -- catch; no state was set before the throw.
        (.error "ReferenceError: firebaseUser is not defined",
         { st with loading := false })
    | .error _ =>
        let finalUserData : UserRecord :=
          { processed with
            id := "local_" ++ toString env.now
            firebaseUid := none
            isLocalUser := true }
        -- fallback branch: persist the session, set a mock user,
        -- authenticate; the final Supabase sync (outcome
        -- `env.supaSyncFinal`) is inside its own try/catch.
        (.ok finalUserData,
         { st with
           localSession := some finalUserData
           userUid := some finalUserData.id
           isAuthenticated := true
           loading := false })

/-! ## PanicProvider alert-list state (ErrorBoundary.jsx lines 156-257)

The `sos_alerts` realtime handlers and the initial/local loads, acting on
the `panicHistory`/`realtimeAlerts` lists and the `hasActiveAlerts` flag. -/

/-- JS `x || null` for an optional string. -/
def jsOrNull (x : Option String) : Option String :=
  if jsFalsy x then none else x

/-- A normalized alert as built by `normalize` (lines 189-202); the
location triple is carried verbatim. -/
structure Alert where
  id : String
  createdAt : Option String
  status : String
  message : String
  videoUrl : Option String
  latitude : Int
  longitude : Int
  address : String
deriving DecidableEq, Repr

/-- A raw `sos_alerts` row as delivered by Supabase. -/
structure SupaRow where
  id : String
  created_at : Option String
  status : Option String
  message : String
  video_url : Option String
  location_latitude : Int
  location_longitude : Int
  location_address : String
deriving DecidableEq, Repr

/-- Embedding of `normalize(row)` (lines 189-202): `row.status || 'pending'`
and `row.video_url || null`;  `created_at` is kept as the raw value (the
`new Date(...)` conversion is a display concern no claim reads). -/
def normalize (row : SupaRow) : Alert :=
  { id := row.id
    createdAt := row.created_at
    status := jsOrStr row.status "pending"
    message := row.message
    videoUrl := jsOrNull row.video_url
    latitude := row.location_latitude
    longitude := row.location_longitude
    address := row.location_address }

/-- The list/flag state of the provider. -/
structure PanicUIState where
  panicHistory : List Alert
  realtimeAlerts : List Alert
  hasActiveAlerts : Bool
deriving DecidableEq, Repr

/-- The predicate of the `find` calls: status `pending` or `active`. -/
def isActiveStatus (a : Alert) : Bool :=
  a.status == "pending" || a.status == "active"

/-- `!!list.find(alert => alert.status === 'pending' || alert.status ===
'active')`. -/
def hasActive (l : List Alert) : Bool := (l.find? isActiveStatus).isSome

/-- The initial Supabase fetch handler (lines 204-222): both lists replaced
by the normalized rows, flag recomputed from them. -/
def onInitialFetch (rows : List SupaRow) (_st : PanicUIState) : PanicUIState :=
  let alerts := rows.map normalize
  { panicHistory := alerts
    realtimeAlerts := alerts
    hasActiveAlerts := hasActive alerts }

/-- The realtime INSERT handler (lines 226-232): the new alert is prepended
and `setHasActiveAlerts(true)` runs unconditionally. -/
def onInsertEvent (row : SupaRow) (st : PanicUIState) : PanicUIState :=
  let newAlert := normalize row
  { panicHistory := newAlert :: st.panicHistory
    realtimeAlerts := newAlert :: st.realtimeAlerts
    hasActiveAlerts := true }

/-- The realtime UPDATE handler (lines 233-240): the matching alert is
replaced in both lists; line 238 binds
`const active = (prev => prev.find(...))` - the arrow function itself,
never applied - and line 239 tests `!!active`, which on a function value is
always `true`, so the flag is set unconditionally. -/
def onUpdateEvent (row : SupaRow) (st : PanicUIState) : PanicUIState :=
  let updated := normalize row
  { panicHistory := st.panicHistory.map fun p => if p.id == updated.id then updated else p
    realtimeAlerts := st.realtimeAlerts.map fun p => if p.id == updated.id then updated else p
    hasActiveAlerts := true }

/-- The local-mode load (lines 171-182): both lists replaced by the stored
alerts, flag recomputed from them. -/
def loadLocalAlerts (alerts : List Alert) (_st : PanicUIState) : PanicUIState :=
  { panicHistory := alerts
    realtimeAlerts := alerts
    hasActiveAlerts := hasActive alerts }

/-! ## `recordStreamToBlob` (`src/unnamed/part_001` lines 146-237)

The recorder session is a small state machine: `recordStart` is the body of
the promise executor up to `mediaRecorder.start(500)` and the single
`setTimeout`; `onDataAvailable`, `timerFire` and `recorderStop` are the
wired handlers.  The sizes of the data chunks the browser delivers are an
input script; the blob is its total byte size. -/

/-- `options.durationMs || 15000` (`uploadStreamToSupabase`, line 242):
`undefined` and `0` both fall back to the default. -/
def effectiveDurationMs (optionsDurationMs : Option Nat) : Nat :=
  match optionsDurationMs with
  | none => 15000
  | some n => if n == 0 then 15000 else n

deriving instance DecidableEq for Except

/-- The session state: the `MediaRecorder.state` string, the chunk sizes
pushed so far, the single pending timeout (its delay), and the promise
settlement (resolved blob size or rejection message). -/
structure RecorderState where
  recState : String
  chunks : List Nat
  pendingTimerDelay : Option Nat
  settled : Option (Except String Nat)
deriving DecidableEq, Repr

/-- State after `mediaRecorder.start(500)` and the `setTimeout(...,
durationMs)` of lines 223-231: recording, no chunks, exactly one pending
timer with delay `durationMs`, promise unsettled. -/
def recordStart (durationMs : Nat) : RecorderState :=
  { recState := "recording"
    chunks := []
    pendingTimerDelay := some durationMs
    settled := none }

/-- `ondataavailable` (lines 189-194): a chunk is pushed only when its size
is positive. -/
def onDataAvailable (size : Nat) (s : RecorderState) : RecorderState :=
  if 0 < size then { s with chunks := s.chunks ++ [size] } else s

/-- `MediaRecorder.stop()` and the wired `onstop` (lines 196-213): clear
the timeout, assemble the blob from the chunks, reject when it is empty and
resolve with it otherwise. -/
def recorderStop (s : RecorderState) : RecorderState :=
  let s := { s with recState := "inactive", pendingTimerDelay := none }
  let blobSize := s.chunks.foldl (· + ·) 0
  if blobSize == 0 then
    { s with settled := some (.error "Video recording produced empty blob") }
  else
    { s with settled := some (.ok blobSize) }

/-- The timeout callback (lines 226-231): stop the recorder only if it is
still recording. -/
def timerFire (s : RecorderState) : RecorderState :=
  if s.recState == "recording" then recorderStop s else s

/-- Deliver a script of chunk events. -/
def runChunks (sizes : List Nat) (s : RecorderState) : RecorderState :=
  sizes.foldl (fun st sz => onDataAvailable sz st) s

/-- A full session of `recordStreamToBlob(stream, durationMs)`: start, the
browser delivers `chunkSizes`, then the single timer fires. -/
def recordStreamToBlob (durationMs : Nat) (chunkSizes : List Nat) : RecorderState :=
  timerFire (runChunks chunkSizes (recordStart durationMs))

/-! ## The `window.panicButtonTimeout` handle (ErrorBoundary.jsx)

The four places that touch the button-reset timer are modelled as atomic
steps on a timer state (the set of pending reset timers, the stored handle,
and a fresh-id counter):

* `actEnter` - the entry of `activatePanic` (lines 273-276): clear the
  stored handle, if any, and null it;
* `actComplete` - the post-success reset (lines 492-498): create a new
  timer and store its handle, with no clearing of a previously stored one;
* `deactivate` - `deactivatePanic` (lines 582-585) and `resetButtonState`
  (lines 625-628): clear the stored handle, if any, and null it;
* `fire` - a pending timer elapses (lines 492-495): its callback resets the
  button flag but does not null the stored handle.

An `activatePanic` call performs `actEnter`, suspends at its awaits, and
performs `actComplete` at the end of its success path; under the JS event
loop another panic-flow operation can run between the two. -/

/-- The timer-relevant state. -/
structure TimerSt where
  pending : List Nat
  handle : Option Nat
  fresh : Nat
deriving DecidableEq, Repr

/-- State with no timer, as on page load. -/
def timerInit : TimerSt := { pending := [], handle := none, fresh := 0 }

/-- `if (window.panicButtonTimeout) { clearTimeout(...); window.panicButtonTimeout = null; }`. -/
def clearHandle (s : TimerSt) : TimerSt :=
  match s.handle with
  | some h => { s with pending := s.pending.filter (· != h), handle := none }
  | none => s

/-- The timer-relevant steps of the panic flow. -/
inductive TimerOp
  | actEnter
  | actComplete
  | deactivate
  | fire (id : Nat)
deriving DecidableEq, Repr

/-- One step. -/
def timerStep : TimerOp → TimerSt → TimerSt
  | .actEnter, s => clearHandle s
  | .actComplete, s =>
      { s with pending := s.pending ++ [s.fresh], handle := some s.fresh,
               fresh := s.fresh + 1 }
  | .deactivate, s => clearHandle s
  | .fire id, s => { s with pending := s.pending.filter (· != id) }

/-- Run a schedule of steps. -/
def runTimerOps (ops : List TimerOp) (s : TimerSt) : TimerSt :=
  ops.foldl (fun st op => timerStep op st) s

/-- A schedule is well formed when every `actComplete` belongs to an
`activatePanic` call that already performed its `actEnter`: in every prefix
the completes do not outnumber the enters. -/
def schedOkAux : List TimerOp → Nat → Bool
  | [], _ => true
  | .actEnter :: rest, n => schedOkAux rest (n + 1)
  | .actComplete :: rest, n => decide (0 < n) && schedOkAux rest (n - 1)
  | _ :: rest, n => schedOkAux rest n

/-- Well-formedness of a schedule. -/
def schedOk (ops : List TimerOp) : Bool := schedOkAux ops 0

/-- The timer invariant maintained by non-overlapping operations: at most
one reset timer is pending, and every pending timer is the one whose
handle `window.panicButtonTimeout` stores. -/
def timerInv (s : TimerSt) : Prop :=
  s.pending.length ≤ 1 ∧ ∀ t ∈ s.pending, s.handle = some t

/-- The panic-flow operations when they do not overlap: a full
`activatePanic` success path is `actEnter` immediately followed by
`actComplete`. -/
inductive SeqTimerOp
  | activate
  | deactivate
  | fire (id : Nat)
deriving DecidableEq, Repr

/-- One non-overlapping operation. -/
def seqTimerStep : SeqTimerOp → TimerSt → TimerSt
  | .activate, s => timerStep .actComplete (timerStep .actEnter s)
  | .deactivate, s => timerStep .deactivate s
  | .fire id, s => timerStep (.fire id) s

/-- Run a sequence of non-overlapping operations. -/
def runSeqTimerOps (ops : List SeqTimerOp) (s : TimerSt) : TimerSt :=
  ops.foldl (fun st op => seqTimerStep op st) s

/-! ## `activatePanic` (ErrorBoundary.jsx lines 259-523) and
`sendPanicAlertToBackend` (lines 525-578)

The procedure is embedded as a function of its inputs, an environment of
external-call outcomes, and the persistent provider state.  Its observable
behaviour is the final state, the outcome, the ordered list of
external-write events it issued, and the toast titles it raised (titles are
given short ASCII names; only their identity and order matter to the
claims). -/

/-- A location fix; coordinates are modelled as integers (their numeric
value is opaque to every claim, which only compare the two writes). -/
structure Loc where
  latitude : Int
  longitude : Int
deriving DecidableEq, Repr

/-- JS `n.toFixed(4)` as used to print a coordinate into the address
string; modelled as the decimal rendering of the integer coordinate.  The
claims depend only on the two writes computing the same address. -/
def toFixed4 (n : Int) : String := toString n

/-- The address built at line 355. -/
def formatAddress (loc : Loc) : String :=
  toFixed4 loc.latitude ++ ", " ++ toFixed4 loc.longitude

/-- The location object of `sosAlertData`. -/
structure SOSLocation where
  latitude : Int
  longitude : Int
  address : String
deriving DecidableEq, Repr

/-- `sosAlertData` (lines 347-357). -/
structure SOSAlertData where
  userId : String
  message : String
  videoUrl : Option String
  location : SOSLocation
deriving DecidableEq, Repr

/-- The `sos_alerts` insert payload (lines 388-397 and 439-448); the
analysis columns are intentionally absent from the payload (left null by
the database). -/
structure InsertPayload where
  user_id : String
  message : String
  video_url : Option String
  location_latitude : Int
  location_longitude : Int
  location_address : String
  status : String
deriving DecidableEq, Repr

/-- Which store the video ended up in. -/
inductive Store
  | supabase
  | firebase
deriving DecidableEq, Repr

/-- `videoData` (line 288); `videoThumbnail` and `videoDuration` are never
written anywhere in the source and are omitted. -/
structure VideoData where
  videoUrl : Option String
  uploadedTo : Option Store
deriving DecidableEq, Repr

/-- Outcome of the `sos_alerts` insert: the await rejecting, an error
result object, or a row id. -/
inductive SupaInsertOutcome
  | throws (msg : String)
  | errorResult (msg : String)
  | okResult (id : String)
deriving DecidableEq, Repr

/-- The part of a fetch response `sendPanicAlertToBackend` reads. -/
structure FetchResp where
  ok : Bool
  status : Nat
  errMsg : String
deriving DecidableEq, Repr

/-- Environment of `sendPanicAlertToBackend`: whether the hostname is
`localhost` or contains `fly.dev`, and the outcome of the
`getIdToken`/`fetch` expression. -/
structure BackendEnv where
  isDevHost : Bool
  fetchResult : Except String FetchResp
deriving Repr

/-- Outcomes of all external calls `activatePanic` awaits, and
`Date.now()`. -/
structure PanicEnv where
  getLoc : Except String Loc
  supaUpload : Except String (Option String)
  fbUpload : Except String (Option String)
  createAlert : Except String (Option String)
  notifLog : Except String Unit
  supaInsert : SupaInsertOutcome
  backend : BackendEnv
  now : Nat
deriving Repr

/-- Inputs of one `activatePanic` call: the authenticated user, the message
argument, the stream argument, and the context location. -/
structure PanicInput where
  uid : String
  hasProfile : Bool
  isLocalUser : Bool
  message : Option String
  hasStream : Bool
  ctxLocation : Option Loc
deriving Repr

/-- `userProfile.isLocalUser || firebaseUser.uid.startsWith('local_')`
(line 270). -/
def isLocalMode (inp : PanicInput) : Bool :=
  inp.isLocalUser || jsStartsWith inp.uid "local_"

/-- An entry of `localStorage['local_sos_alerts']`:
`{ ...sosAlertData, id, timestamp: new Date() }` (line 378). -/
structure LocalAlert where
  id : String
  data : SOSAlertData
  timestampNow : Nat
deriving DecidableEq, Repr

/-- The external writes `activatePanic` issues, in program order. -/
inductive PanicEvent
  | supaUploadAttempt (bucket : String) (durationMs : Nat)
  | fbUploadAttempt
  | localSave (id : String) (data : SOSAlertData)
  | firestoreCreate (data : SOSAlertData)
  | notifLogAttempt (kind : String)
  | supaInsertAttempt (payload : InsertPayload)
  | backendSendAttempt
deriving DecidableEq, Repr

/-- The persistent provider state `activatePanic` touches.  In local mode
`panicHistory`/`realtimeAlerts` hold the raw stored alert objects; their
Firebase-mode contents are the `PanicUIState` model above.  `sosTable` is
the relational `sos_alerts` table (rows actually inserted). -/
structure PanicState where
  isActivated : Bool
  isProcessing : Bool
  localStore : List LocalAlert
  panicHistoryLocal : List LocalAlert
  realtimeAlertsLocal : List LocalAlert
  sosTable : List InsertPayload
  timer : TimerSt
deriving DecidableEq, Repr

/-- The provider state on page load. -/
def initPanicState : PanicState :=
  { isActivated := false
    isProcessing := false
    localStore := []
    panicHistoryLocal := []
    realtimeAlertsLocal := []
    sosTable := []
    timer := timerInit }

/-- How one `activatePanic` call ended. -/
inductive PanicOutcome
  | noAuth
  | completed (alertId : Option String)
  | failed (msg : String)
deriving DecidableEq, Repr

/-- Observable result of one `activatePanic` call. -/
structure PanicResult where
  state : PanicState
  outcome : PanicOutcome
  events : List PanicEvent
  toasts : List String
deriving Repr

/-- Embedding of `sendPanicAlertToBackend` (lines 525-578): on a dev host
the fetch is skipped and a toast shown; otherwise a non-ok response or a
rejected fetch is rethrown by the catch (the dev-host swallow at lines
571-574 cannot apply). -/
def sendPanicAlertToBackend (benv : BackendEnv) : Except String Unit × List String :=
  if benv.isDevHost then
    (.ok (), ["Development Mode"])
  else
    match benv.fetchResult with
    | .ok resp =>
        if resp.ok then (.ok (), ["Emergency Services Notified"])
        else (.error ("Server Error: " ++ toString resp.status ++ " - " ++ resp.errMsg), [])
    | .error e => (.error e, [])

/-- The Firebase-upload fallback (lines 317-341): a missing URL from a
successful call is turned into a throw, and any failure leaves the video
data empty with the last-resort toast. -/
def fbFallback (env : PanicEnv) : VideoData × List PanicEvent × List String :=
  match env.fbUpload with
  | .ok u =>
      if jsFalsy u then
        ({ videoUrl := none, uploadedTo := none }, [PanicEvent.fbUploadAttempt],
         ["Uploading Video (Firebase)...", "Video Upload Failed"])
      else
        ({ videoUrl := u, uploadedTo := some Store.firebase }, [PanicEvent.fbUploadAttempt],
         ["Uploading Video (Firebase)...", "Video Uploaded (Firebase)!"])
  | .error _ =>
      ({ videoUrl := none, uploadedTo := none }, [PanicEvent.fbUploadAttempt],
       ["Uploading Video (Firebase)...", "Video Upload Failed"])

/-- The video section of `activatePanic` (lines 288-342): no stream skips
recording entirely; otherwise Supabase is attempted with bucket
`first_bucket` and a 15000 ms recording, and only a throw or a falsy URL
reaches the Firebase fallback. -/
def videoPhase (hasStream : Bool) (env : PanicEnv) :
    VideoData × List PanicEvent × List String :=
  if !hasStream then
    ({ videoUrl := none, uploadedTo := none }, [], ["Video Recording Failed"])
  else
    let supaEv := PanicEvent.supaUploadAttempt "first_bucket" 15000
    match env.supaUpload with
    | .ok u =>
        if jsFalsy u then
          match fbFallback env with
          | (vd, evs, ts) => (vd, supaEv :: evs, "Recording Video..." :: ts)
        else
          ({ videoUrl := u, uploadedTo := some Store.supabase }, [supaEv],
           ["Recording Video...", "Video Uploaded!"])
    | .error _ =>
        match fbFallback env with
        | (vd, evs, ts) => (vd, supaEv :: evs, "Recording Video..." :: ts)

/-- The `sos_alerts` insert payload built at lines 388-397 / 439-448. -/
def mkInsertPayload (uid : String) (data : SOSAlertData) : InsertPayload :=
  { user_id := uid
    message := data.message
    video_url := jsOrNull data.videoUrl
    location_latitude := data.location.latitude
    location_longitude := data.location.longitude
    location_address := data.location.address
    status := "pending" }

/-- Effect of the best-effort `sos_alerts` insert on the table: only a
successful insert adds the row; an error result or a rejected await is
logged and swallowed. -/
def applySupaInsert (payload : InsertPayload) (outcome : SupaInsertOutcome)
    (st : PanicState) : PanicState :=
  match outcome with
  | .okResult _ => { st with sosTable := st.sosTable ++ [payload] }
  | _ => st

/-- The local-mode persistence branch (lines 373-411): build the id from
`Date.now()`, unshift onto `local_sos_alerts`, set both lists to the new
stored list, then the best-effort Supabase insert. -/
def localPersist (uid : String) (env : PanicEnv) (data : SOSAlertData)
    (st : PanicState) : PanicState × String × List PanicEvent :=
  let alertId := "local_sos_" ++ toString env.now
  let entry : LocalAlert := { id := alertId, data := data, timestampNow := env.now }
  let newList := entry :: st.localStore
  let payload := mkInsertPayload uid data
  let st := { st with
    localStore := newList
    panicHistoryLocal := newList
    realtimeAlertsLocal := newList }
  (applySupaInsert payload env.supaInsert st, alertId,
   [PanicEvent.localSave alertId data, PanicEvent.supaInsertAttempt payload])

/-- The Firebase-mode persistence branch (lines 412-463): `createSOSAlert`
is awaited outside any inner try, so its rejection aborts the try body; a
truthy alert id triggers the caught notification log; then the best-effort
Supabase insert. -/
def firebasePersist (uid : String) (env : PanicEnv) (data : SOSAlertData)
    (st : PanicState) :
    Except String (Option String) × PanicState × List PanicEvent :=
  match env.createAlert with
  | .error e => (.error e, st, [PanicEvent.firestoreCreate data])
  | .ok alertId =>
      let payload := mkInsertPayload uid data
      (.ok alertId, applySupaInsert payload env.supaInsert st,
       PanicEvent.firestoreCreate data ::
         ((if jsFalsy alertId then [] else [PanicEvent.notifLogAttempt "sos_alert_created"]) ++
          [PanicEvent.supaInsertAttempt payload]))

/-- The outer catch of `activatePanic` (lines 500-522): in Firebase mode a
failure notification log is attempted (itself caught), a destructive toast
is raised, and the finally clause drops `isProcessing`. -/
def panicCatch (localMode : Bool) (e : String) (st : PanicState) : PanicResult :=
  { state := { st with isProcessing := false }
    outcome := .failed e
    events := if localMode then [] else [PanicEvent.notifLogAttempt "sos_alert_failed"]
    toasts := ["SOS Alert Failed"] }

/-- `sosAlertData` as built at lines 347-357. -/
def mkSOSData (inp : PanicInput) (vd : VideoData) (loc : Loc) : SOSAlertData :=
  { userId := inp.uid
    message := jsOrStr inp.message "Emergency SOS activated without a message."
    videoUrl := vd.videoUrl
    location :=
      { latitude := loc.latitude
        longitude := loc.longitude
        address := formatAddress loc } }

/-- The part of `activatePanic` after the video section (lines 344-498),
with the video data already computed: build `sosAlertData`, take the
persistence branch, send to the backend, then the success tail
(`setIsActivated(true)`, success toast, and the reset timer stored without
clearing a previous handle).  Returns the state, the outcome, and the
events and toasts of this part. -/
def panicAfterVideo (inp : PanicInput) (env : PanicEnv) (loc : Loc) (vd : VideoData)
    (st : PanicState) : PanicState × PanicOutcome × List PanicEvent × List String :=
  let localMode := isLocalMode inp
  let data := mkSOSData inp vd loc
  let persist : Except String (Option String) × PanicState × List PanicEvent :=
    if localMode then
      match localPersist inp.uid env data st with
      | (st', aid, evs) => (.ok (some aid), st', evs)
    else firebasePersist inp.uid env data st
  match persist with
  | (.error e, st1, pevs) =>
      let r := panicCatch localMode e st1
      (r.state, r.outcome, pevs ++ r.events, r.toasts)
  | (.ok alertId, st1, pevs) =>
      match sendPanicAlertToBackend env.backend with
      | (.error e, bts) =>
          let r := panicCatch localMode e st1
          (r.state, r.outcome, pevs ++ [PanicEvent.backendSendAttempt] ++ r.events,
           bts ++ r.toasts)
      | (.ok _, bts) =>
          let st2 := { st1 with isActivated := true }
          let st3 := { st2 with timer := timerStep .actComplete st2.timer }
          ({ st3 with isProcessing := false }, .completed alertId,
           pevs ++ [PanicEvent.backendSendAttempt],
           bts ++ [if localMode then "SOS Alert Created!" else "SOS Alert Sent!"])

/-- The body of `activatePanic` from the point the location is known
(lines 287-498): the video section, then `panicAfterVideo`. -/
def panicMain (inp : PanicInput) (env : PanicEnv) (loc : Loc) (st : PanicState) :
    PanicResult :=
  match videoPhase inp.hasStream env with
  | (vd, vevs, vtoasts) =>
    match panicAfterVideo inp env loc vd st with
    | (st', out, evs, ts) =>
        { state := st', outcome := out, events := vevs ++ evs, toasts := vtoasts ++ ts }

/-- Prepend toasts raised before the main body. -/
def addPreToasts (ts : List String) (r : PanicResult) : PanicResult :=
  { r with toasts := ts ++ r.toasts }

/-- Embedding of `activatePanic(message, stream)` (lines 259-523): the
authentication guard, the entry clearing of the reset-timer handle, the
location step (the context location, or `getCurrentLocation` behind a
toast), then `panicMain`. -/
def activatePanic (inp : PanicInput) (env : PanicEnv) (st0 : PanicState) :
    PanicResult :=
  if inp.uid == "" || !inp.hasProfile then
    { state := st0, outcome := .noAuth, events := [], toasts := ["Authentication Required"] }
  else
    let st := { st0 with timer := timerStep .actEnter st0.timer, isProcessing := true }
    match inp.ctxLocation with
    | some loc => panicMain inp env loc st
    | none =>
        match env.getLoc with
        | .ok loc => addPreToasts ["Getting Location..."] (panicMain inp env loc st)
        | .error e =>
            addPreToasts ["Getting Location..."] (panicCatch (isLocalMode inp) e st)

/-- Whether an event is one of the two video-upload attempts. -/
def isUploadEvent : PanicEvent → Bool
  | .supaUploadAttempt _ _ => true
  | .fbUploadAttempt => true
  | _ => false

/-- Whether the Supabase upload attempt fails in the sense of line 305/313:
it throws, or it returns a falsy `videoUrl`. -/
def supaAttemptFailed (env : PanicEnv) : Bool :=
  match env.supaUpload with
  | .error _ => true
  | .ok u => jsFalsy u

/-- Whether the Firebase fallback attempt fails in the sense of line
323/331: it throws, or it returns a falsy `videoUrl`. -/
def fbAttemptFailed (env : PanicEnv) : Bool :=
  match env.fbUpload with
  | .error _ => true
  | .ok u => jsFalsy u

/-- The alert-record write an event performs, if any: the local-storage
save or the Firestore create. -/
def alertWriteData : PanicEvent → Option SOSAlertData
  | .localSave _ d => some d
  | .firestoreCreate d => some d
  | _ => none

/-! # Theorems -/

/-- The `user_id` validation branch. -/
lemma ensure_err_uid (now : String) (u : UserPayloadIn) (db : List UserRow)
    (h : jsFalsy u.user_id = true) :
    ensureSupabaseUser now u db = .error "user_id is required" := by
  simp [ensureSupabaseUser, h]

/-- The required-fields validation branch. -/
lemma ensure_err_fields (now : String) (u : UserPayloadIn) (db : List UserRow)
    (h1 : jsFalsy u.user_id = false)
    (h2 : (jsFalsy u.name || jsFalsy u.email || jsFalsy u.phone) = true) :
    ensureSupabaseUser now u db = .error "name, email, phone are required" := by
  simp [ensureSupabaseUser, h1, h2]

/-- The skip-insert branch. -/
lemma ensure_exists_case (now : String) (u : UserPayloadIn) (db : List UserRow)
    (r : UserRow)
    (h1 : jsFalsy u.user_id = false)
    (h2 : (jsFalsy u.name || jsFalsy u.email || jsFalsy u.phone) = false)
    (hfind : db.find? (fun row => row.user_id == u.user_id.getD "") = some r) :
    ensureSupabaseUser now u db =
      .ok ({ status := "exists", user_id := u.user_id.getD "" }, db) := by
  simp [ensureSupabaseUser, ensurePayload, h1, h2, hfind]

/-- The insert branch. -/
lemma ensure_insert_case (now : String) (u : UserPayloadIn) (db : List UserRow)
    (h1 : jsFalsy u.user_id = false)
    (h2 : (jsFalsy u.name || jsFalsy u.email || jsFalsy u.phone) = false)
    (hfind : db.find? (fun row => row.user_id == u.user_id.getD "") = none) :
    ensureSupabaseUser now u db =
      .ok ({ status := "inserted", user_id := u.user_id.getD "" },
        db ++ [ensurePayload now u]) := by
  simp [ensureSupabaseUser, ensurePayload, h1, h2, hfind]

/-- Claim C10: `ensureSupabaseUser` is idempotent per `user_id` and
validates its input: a missing (or empty) `user_id` throws, a missing
`name`, `email` or `phone` throws; when a `users` row with the given
`user_id` exists the call returns status `exists` leaving the table
unchanged; otherwise it inserts exactly one row whose email is lowercased
and trimmed and whose role defaults to `citizen`, returning status
`inserted`; and two successive calls with the same `user_id` insert at most
one row (the second one performs no insert). -/
theorem ensureSupabaseUser_spec (now now2 : String) (u : UserPayloadIn)
    (db : List UserRow) :
    (jsFalsy u.user_id = true →
      ensureSupabaseUser now u db = .error "user_id is required") ∧
    (jsFalsy u.user_id = false →
      (jsFalsy u.name || jsFalsy u.email || jsFalsy u.phone) = true →
      ensureSupabaseUser now u db = .error "name, email, phone are required") ∧
    (∀ r, jsFalsy u.user_id = false →
      (jsFalsy u.name || jsFalsy u.email || jsFalsy u.phone) = false →
      db.find? (fun row => row.user_id == u.user_id.getD "") = some r →
      ensureSupabaseUser now u db =
        .ok ({ status := "exists", user_id := u.user_id.getD "" }, db)) ∧
    (jsFalsy u.user_id = false →
      (jsFalsy u.name || jsFalsy u.email || jsFalsy u.phone) = false →
      db.find? (fun row => row.user_id == u.user_id.getD "") = none →
      ensureSupabaseUser now u db =
        .ok ({ status := "inserted", user_id := u.user_id.getD "" },
          db ++ [ensurePayload now u]) ∧
      (ensurePayload now u).email = jsTrim (jsToLower (u.email.getD "")) ∧
      (jsFalsy u.role = true → (ensurePayload now u).role = "citizen")) ∧
    (∀ res1 db1 res2 db2,
      ensureSupabaseUser now u db = .ok (res1, db1) →
      ensureSupabaseUser now2 u db1 = .ok (res2, db2) →
      db2.length ≤ db.length + 1 ∧
        (res1.status = "inserted" →
          res2 = { status := "exists", user_id := u.user_id.getD "" } ∧ db2 = db1)) := by
  refine ⟨ensure_err_uid now u db, ensure_err_fields now u db,
    fun r h1 h2 h3 => ensure_exists_case now u db r h1 h2 h3,
    fun h1 h2 h3 => ⟨ensure_insert_case now u db h1 h2 h3, rfl, fun hr => by
      simp [ensurePayload, hr]⟩,
    fun res1 db1 res2 db2 hc1 hc2 => ?_⟩
  by_cases h1 : jsFalsy u.user_id = true
  · rw [ensure_err_uid now u db h1] at hc1; cases hc1
  · rw [Bool.not_eq_true] at h1
    by_cases h2 : (jsFalsy u.name || jsFalsy u.email || jsFalsy u.phone) = true
    · rw [ensure_err_fields now u db h1 h2] at hc1; cases hc1
    · rw [Bool.not_eq_true] at h2
      rcases hfind : db.find? (fun row => row.user_id == u.user_id.getD "") with _ | r
      · -- first call inserts; the second call finds the inserted row
        rw [ensure_insert_case now u db h1 h2 hfind] at hc1
        injection hc1 with hp
        injection hp with hres1 hdb1
        have hfind2 : db1.find? (fun row => row.user_id == u.user_id.getD "") =
            some (ensurePayload now u) := by
          rw [← hdb1, List.find?_append, hfind]
          simp [ensurePayload]
        rw [ensure_exists_case now2 u db1 (ensurePayload now u) h1 h2 hfind2] at hc2
        injection hc2 with hp2
        injection hp2 with hres2 hdb2
        subst hdb2
        refine ⟨by rw [← hdb1]; simp, fun _ => ⟨hres2.symm, rfl⟩⟩
      · -- first call found an existing row: neither call inserts
        rw [ensure_exists_case now u db r h1 h2 hfind] at hc1
        injection hc1 with hp
        injection hp with hres1 hdb1
        subst hdb1
        rw [ensure_exists_case now2 u db r h1 h2 hfind] at hc2
        injection hc2 with hp2
        injection hp2 with hres2 hdb2
        subst hdb2
        refine ⟨by simp, fun hst => ?_⟩
        rw [← hres1] at hst
        simp at hst

/-- Witness for C10: a fresh user with decorated email is inserted once,
with the email lowercased and trimmed and the role defaulted. -/
theorem ensureSupabaseUser_spec_witness :
    ensureSupabaseUser "2026-01-01T00:00:00Z"
        { user_id := some "u1", name := some " Alice ", email := some " A@B.c ",
          phone := some "123", role := none } [] =
      .ok ({ status := "inserted", user_id := "u1" },
        [{ user_id := "u1", name := "Alice", email := "a@b.c", phone := "123",
           role := "citizen", joined_at := "2026-01-01T00:00:00Z" }]) := by
  have h := (ensureSupabaseUser_spec "2026-01-01T00:00:00Z" "later"
      { user_id := some "u1", name := some " Alice ", email := some " A@B.c ",
        phone := some "123", role := none } []).2.2.2.1 rfl rfl rfl
  rw [h.1]
  decide

/-- The token request the callback sends when the error param is absent, a
code is present and a verifier is stored: its `code_verifier` is exactly
the stored verifier, whatever the token fetch does. -/
lemma authCallback_sends_verifier (env : CallbackEnv) (origin c v : String)
    (he : env.error = none) (hc : env.code = some c)
    (hv : env.sessionVerifier = some v) :
    (authCallback env origin).tokenRequest =
      some { client_id := googleClientIdCallback
             grant_type := "authorization_code"
             code := c
             code_verifier := v
             redirect_uri := origin ++ "/auth/callback" } := by
  simp only [authCallback, he, hc, hv]
  split
  · rfl
  · split <;> rfl

/-- Claim C8: the Google sign-in flow is PKCE round-trip consistent.
`startAuth` stores the verifier generated from the `getRandomValues` words
in `sessionStorage['google_code_verifier']` and sends a `code_challenge`
equal to the base64url encoding (`+` -> `-`, `/` -> `_`, padding stripped,
per `base64UrlEncode`) of the SHA-256 hash of that verifier, with method
`S256`; the callback's token-exchange request carries exactly the stored
verifier as `code_verifier`; and when the verifier is missing the callback
navigates to `/login` without storing a user. -/
theorem pkce_round_trip (sha256 : String → List Nat) (randoms : List Nat)
    (origin : String) :
    ((startAuth sha256 randoms origin).sessionVerifier
        = some (generateCodeVerifier randoms) ∧
      (startAuth sha256 randoms origin).request.code_challenge
        = base64UrlEncode (sha256 (generateCodeVerifier randoms)) ∧
      (startAuth sha256 randoms origin).request.code_challenge_method = "S256") ∧
    (∀ env : CallbackEnv, ∀ c v : String, ∀ body : TokenRequestBody,
      env.error = none → env.code = some c → env.sessionVerifier = some v →
      (authCallback env origin).tokenRequest = some body →
      body.code_verifier = v) ∧
    (∀ env : CallbackEnv, ∀ c : String,
      env.error = none → env.code = some c → env.sessionVerifier = none →
      (authCallback env origin).navigatedTo = "/login" ∧
        (authCallback env origin).storedUser = none) := by
  refine ⟨⟨rfl, rfl, rfl⟩, fun env c v body he hc hv hreq => ?_, fun env c he hc hv => ?_⟩
  · rw [authCallback_sends_verifier env origin c v he hc hv] at hreq
    injection hreq with hb
    rw [← hb]
  · unfold authCallback
    rw [he, hc, hv]
    exact ⟨rfl, rfl⟩

/-- Witness for C8 at concrete values: two 32-bit random words give the
verifier `78ab`; a mock hash of bytes `[255, 0, 16]` encodes to `_wAQ`
(exercising both character replacements is not needed; `/` -> `_` is); a
callback with the verifier stored sends it, and one without it lands on
`/login`. -/
theorem pkce_round_trip_witness :
    (startAuth (fun _ => [255, 0, 16]) [305419896, 171] "https://app").sessionVerifier
        = some "78ab" ∧
    (startAuth (fun _ => [255, 0, 16]) [305419896, 171] "https://app").request.code_challenge
        = "_wAQ" ∧
    ({ client_id := googleClientIdCallback, grant_type := "authorization_code",
       code := "authcode", code_verifier := "78ab",
       redirect_uri := "https://app/auth/callback" } : TokenRequestBody).code_verifier
        = "78ab" ∧
    (authCallback { code := some "authcode", error := none, sessionVerifier := none,
                    tokenFetch := fun _ => .error "down" } "https://app").navigatedTo
        = "/login" := by
  have h := pkce_round_trip (fun _ => [255, 0, 16]) [305419896, 171] "https://app"
  refine ⟨?_, ?_, ?_, ?_⟩
  · rw [h.1.1]; rfl
  · rw [h.1.2.1]; rfl
  · exact h.2.1
      { code := some "authcode", error := none, sessionVerifier := some "78ab",
          tokenFetch := fun _ => .error "down" }
      "authcode" "78ab" _ rfl rfl rfl rfl
  · exact (h.2.2
      { code := some "authcode", error := none, sessionVerifier := none,
          tokenFetch := fun _ => .error "down" }
      "authcode" rfl rfl rfl).1

/-- Claim C4 (code bug, failing input): a store with a single `pending`
alert receives a realtime UPDATE that sets that alert's status to
`resolved`.  The handler replaces the alert in both lists, after which no
alert has status `pending` or `active`, yet `hasActiveAlerts` is left
`true`: line 238 binds `const active = (prev => prev.find(...))` - the
arrow function itself - and `!!active` on a function value is always true.
The claimed equivalence (flag iff some alert is pending or active) fails
here. -/
theorem onUpdateEvent_flag_inconsistent :
    (onUpdateEvent
        { id := "1", created_at := none, status := some "resolved", message := "m",
          video_url := none, location_latitude := 0, location_longitude := 0,
          location_address := "0, 0" }
        { panicHistory := [{ id := "1", createdAt := none, status := "pending",
                             message := "m", videoUrl := none, latitude := 0,
                             longitude := 0, address := "0, 0" }],
          realtimeAlerts := [{ id := "1", createdAt := none, status := "pending",
                               message := "m", videoUrl := none, latitude := 0,
                               longitude := 0, address := "0, 0" }],
          hasActiveAlerts := true }).hasActiveAlerts = true ∧
    hasActive (onUpdateEvent
        { id := "1", created_at := none, status := some "resolved", message := "m",
          video_url := none, location_latitude := 0, location_longitude := 0,
          location_address := "0, 0" }
        { panicHistory := [{ id := "1", createdAt := none, status := "pending",
                             message := "m", videoUrl := none, latitude := 0,
                             longitude := 0, address := "0, 0" }],
          realtimeAlerts := [{ id := "1", createdAt := none, status := "pending",
                               message := "m", videoUrl := none, latitude := 0,
                               longitude := 0, address := "0, 0" }],
          hasActiveAlerts := true }).panicHistory = false := by
  exact ⟨rfl, by decide⟩

/-- Claim C7 (code bug, failing input): with a fully valid login input,
the Firebase-success branch rejects with a ReferenceError (the source
reads `firebaseUser` outside the `try` block that declared it), never
setting the user or `isAuthenticated`; the provider-failure branch behaves
as claimed, storing the `local_<timestamp>` fallback record and
authenticating. -/
theorem login_firebase_branch_reference_error :
    (login { name := "Alice", email := "alice@example.com", phone := "+15551234567" }
        { authResult := .ok "fb_uid_1", firestoreSave := .ok (), supaSyncBranch := .ok (),
          supaSyncFinal := .ok (), now := 1700000000000 } initialAuthState
      = (.error "ReferenceError: firebaseUser is not defined", initialAuthState)) ∧
    (login { name := "Alice", email := "alice@example.com", phone := "+15551234567" }
        { authResult := .error "auth/unavailable", firestoreSave := .error "e",
          supaSyncBranch := .error "e", supaSyncFinal := .error "e",
          now := 1700000000000 } initialAuthState
      = (.ok { id := "local_1700000000000", name := "Alice", email := "alice@example.com",
               phone := "+15551234567", firebaseUid := none, isLocalUser := true },
         { userUid := some "local_1700000000000", isAuthenticated := true,
           localSession := some { id := "local_1700000000000", name := "Alice",
                                  email := "alice@example.com", phone := "+15551234567",
                                  firebaseUid := none, isLocalUser := true },
           loading := false })) := by
  constructor <;> decide

/-- When the recorder is still recording, the timer callback stops it. -/
lemma timerFire_recording (s : RecorderState) (h : s.recState = "recording") :
    timerFire s = recorderStop s := by
  unfold timerFire
  rw [h]
  simp

/-- The settlement `recorderStop` produces: a rejection on an empty blob,
otherwise the total size of the pushed chunks. -/
lemma recorderStop_settled (s : RecorderState) :
    (recorderStop s).settled =
      some (if s.chunks.foldl (· + ·) 0 == 0 then
        .error "Video recording produced empty blob"
      else .ok (s.chunks.foldl (· + ·) 0)) := by
  unfold recorderStop
  by_cases h : (s.chunks.foldl (· + ·) 0 == 0) = true <;> simp [h]

/-- Chunk delivery does not settle the promise, change the recorder state,
or touch the timer; it appends exactly the positive-size chunks. -/
lemma runChunks_fields (sizes : List Nat) (s : RecorderState) :
    (runChunks sizes s).settled = s.settled ∧
    (runChunks sizes s).recState = s.recState ∧
    (runChunks sizes s).pendingTimerDelay = s.pendingTimerDelay ∧
    (runChunks sizes s).chunks = s.chunks ++ sizes.filter (fun z => decide (0 < z)) := by
  induction sizes generalizing s with
  | nil => simp [runChunks]
  | cons a rest ih =>
      have hstep : runChunks (a :: rest) s = runChunks rest (onDataAvailable a s) := rfl
      obtain ⟨h1, h2, h3, h4⟩ := ih (onDataAvailable a s)
      rw [hstep]
      by_cases ha : 0 < a <;>
        simp only [onDataAvailable, ha, if_true, if_false, List.filter_cons] at h1 h2 h3 h4 ⊢ <;>
        simp [ha, h1, h2, h3, h4]

/-- With a stream present, the upload section always attempts Supabase
first, and attempts Firebase exactly when the Supabase attempt failed. -/
lemma videoPhase_events_true (env : PanicEnv) :
    (videoPhase true env).2.1 =
      if supaAttemptFailed env then
        [PanicEvent.supaUploadAttempt "first_bucket" 15000, PanicEvent.fbUploadAttempt]
      else [PanicEvent.supaUploadAttempt "first_bucket" 15000] := by
  unfold videoPhase supaAttemptFailed fbFallback
  rcases env.supaUpload with e | u
  · rcases env.fbUpload with e2 | u2
    · simp
    · by_cases h2 : jsFalsy u2 = true <;> simp [h2]
  · by_cases h : jsFalsy u = true
    · rcases env.fbUpload with e2 | u2
      · simp [h]
      · by_cases h2 : jsFalsy u2 = true <;> simp [h, h2]
    · simp [h]

/-- Past the guard, with the context location available, `activatePanic`
is the cleared-timer, processing state fed into `panicMain`. -/
lemma activatePanic_eq_main (inp : PanicInput) (env : PanicEnv) (st0 : PanicState)
    (loc : Loc) (hg1 : (inp.uid == "") = false) (hg2 : inp.hasProfile = true)
    (hloc : inp.ctxLocation = some loc) :
    activatePanic inp env st0 =
      panicMain inp env loc
        { st0 with timer := timerStep .actEnter st0.timer, isProcessing := true } := by
  unfold activatePanic
  simp [hg1, hg2, hloc]

/-- The events of `panicMain` are the video-section events followed by the
events of the rest of the flow. -/
lemma panicMain_decomp (inp : PanicInput) (env : PanicEnv) (loc : Loc)
    (st : PanicState) :
    (panicMain inp env loc st).events =
      (videoPhase inp.hasStream env).2.1 ++
        (panicAfterVideo inp env loc (videoPhase inp.hasStream env).1 st).2.2.1 := by
  unfold panicMain
  rcases h : videoPhase inp.hasStream env with ⟨vd, vevs, vts⟩
  rcases h2 : panicAfterVideo inp env loc vd st with ⟨st', out, evs, ts⟩
  simp [h, h2]

/-- The flow after the video section issues no upload event. -/
lemma panicAfterVideo_no_upload (inp : PanicInput) (env : PanicEnv) (loc : Loc)
    (vd : VideoData) (st : PanicState) :
    ((panicAfterVideo inp env loc vd st).2.2.1.all fun e => !isUploadEvent e) = true := by
  unfold panicAfterVideo localPersist firebasePersist panicCatch
  by_cases hlm : isLocalMode inp <;>
    rcases hca : env.createAlert with ec | aid <;>
    rcases hb : sendPanicAlertToBackend env.backend with ⟨rb, bts⟩ <;>
    rcases rb with eb | ub <;>
    simp only [hlm, hca, hb, if_true, if_false] <;>
    first
      | rfl
      | (by_cases hfa : jsFalsy aid = true <;>
          simp only [hfa, if_true, if_false] <;> rfl)

/-- `clearHandle` restores the invariant to the empty-timer form. -/
lemma clearHandle_empty (s : TimerSt) (h : timerInv s) :
    (clearHandle s).pending = [] ∧ (clearHandle s).handle = none := by
  obtain ⟨hlen, hall⟩ := h
  unfold clearHandle
  rcases hh : s.handle with _ | t
  · have : s.pending = [] := by
      rcases hp : s.pending with _ | ⟨a, rest⟩
      · rfl
      · exact absurd (hall a (by simp [hp])) (by simp [hh])
    simp [this, hh]
  · constructor
    · simp only []
      rw [List.filter_eq_nil_iff]
      intro a ha
      have := hall a ha
      rw [hh] at this
      injection this with hat
      simp [hat]
    · rfl

/-- Every non-overlapping panic-flow operation preserves the timer
invariant. -/
lemma seqTimerStep_inv (op : SeqTimerOp) (s : TimerSt) (h : timerInv s) :
    timerInv (seqTimerStep op s) := by
  obtain ⟨hlen, hall⟩ := h
  cases op with
  | activate =>
      obtain ⟨hp, hh⟩ := clearHandle_empty s ⟨hlen, hall⟩
      unfold seqTimerStep timerStep
      constructor
      · simp [hp]
      · intro t ht
        simp [hp] at ht
        simp [ht]
  | deactivate =>
      obtain ⟨hp, hh⟩ := clearHandle_empty s ⟨hlen, hall⟩
      unfold seqTimerStep timerStep
      exact ⟨by simp [hp], by simp [hp]⟩
  | fire id =>
      unfold seqTimerStep timerStep
      constructor
      · exact le_trans (List.length_filter_le _ _) hlen
      · intro t ht
        exact hall t (List.mem_of_mem_filter ht)

/-- Claim C9 (amended): when panic-flow operations do not overlap - each
`activatePanic` performs its entry clearing and its post-success timer
store back to back - at most one button-reset timer is pending at any
time, because the entry of `activatePanic`, `deactivatePanic` and
`resetButtonState` all clear the stored handle before nulling it.  (The
post-success reset itself stores a fresh handle without clearing, which is
harmless exactly when activations do not overlap.) -/
theorem sequential_single_timer (ops : List SeqTimerOp) :
    (runSeqTimerOps ops timerInit).pending.length ≤ 1 := by
  suffices h : ∀ s : TimerSt, timerInv s → timerInv (runSeqTimerOps ops s) by
    exact (h timerInit ⟨by simp [timerInit], by simp [timerInit]⟩).1
  induction ops with
  | nil => exact fun s hs => hs
  | cons op rest ih =>
      intro s hs
      exact ih (seqTimerStep op s) (seqTimerStep_inv op s hs)

/-- Claim C9 (counterexample): two overlapping activations - both perform
the entry clearing while suspended at their awaits, then both complete -
form a well-formed schedule that leaves two reset timers pending, because
the post-success reset (lines 492-498) stores the new handle without
clearing the existing one.  This refutes the claim that at most one
button-reset timer is pending at any time and that every path that starts
or replaces the timer first clears the existing handle. -/
theorem overlapping_activations_two_timers :
    schedOk [TimerOp.actEnter, TimerOp.actEnter, TimerOp.actComplete,
      TimerOp.actComplete] = true ∧
    (runTimerOps [TimerOp.actEnter, TimerOp.actEnter, TimerOp.actComplete,
      TimerOp.actComplete] timerInit).pending.length = 2 := by
  decide

/-- Claim C5: the emergency video is recorded for a fixed duration.
(i) `activatePanic` requests a 15000 ms recording into `first_bucket` as
its first external event whenever a stream is present (and the guard and
location steps pass); (ii) `uploadStreamToSupabase` defaults the duration
to 15000 when none is given; (iii) starting the recorder schedules exactly
one timer, with delay `durationMs`, and chunk delivery never adds another
or settles the promise early; (iv) the promise is unsettled until the
timer stops the recorder; (v) once the timer fires, the promise resolves
with the blob assembled from the received (positive-size) chunks whenever
that blob is nonempty. -/
theorem recordStreamToBlob_fixed_duration (durationMs : Nat) (sizes : List Nat)
    (inp : PanicInput) (env : PanicEnv) (st : PanicState) (loc : Loc) :
    ((inp.uid == "") = false → inp.hasProfile = true → inp.ctxLocation = some loc →
      inp.hasStream = true →
      (activatePanic inp env st).events.head? =
        some (PanicEvent.supaUploadAttempt "first_bucket" 15000)) ∧
    effectiveDurationMs none = 15000 ∧
    (recordStart durationMs).pendingTimerDelay = some durationMs ∧
    (runChunks sizes (recordStart durationMs)).pendingTimerDelay = some durationMs ∧
    (runChunks sizes (recordStart durationMs)).settled = none ∧
    (0 < (sizes.filter fun z => decide (0 < z)).foldl (· + ·) 0 →
      (recordStreamToBlob durationMs sizes).settled =
        some (.ok ((sizes.filter fun z => decide (0 < z)).foldl (· + ·) 0))) := by
  obtain ⟨h1, h2, h3, h4⟩ := runChunks_fields sizes (recordStart durationMs)
  refine ⟨fun hg1 hg2 hloc hstream => ?_, rfl, rfl, by rw [h3]; rfl, by rw [h1]; rfl,
    fun hsum => ?_⟩
  · rw [activatePanic_eq_main inp env st loc hg1 hg2 hloc, panicMain_decomp, hstream,
      videoPhase_events_true env]
    by_cases hf : supaAttemptFailed env = true <;> simp [hf]
  · have hch : (runChunks sizes (recordStart durationMs)).chunks =
        sizes.filter fun z => decide (0 < z) := by
      rw [h4]; simp [recordStart]
    have hrs : (runChunks sizes (recordStart durationMs)).recState = "recording" := by
      rw [h2]; rfl
    have hne : ((sizes.filter fun z => decide (0 < z)).foldl (· + ·) 0 == 0) = false := by
      simp only [beq_eq_false_iff_ne, ne_eq]
      exact Nat.pos_iff_ne_zero.mp hsum
    show (timerFire (runChunks sizes (recordStart durationMs))).settled = _
    rw [timerFire_recording _ hrs, recorderStop_settled, hch, hne]
    simp

/-- Witness for C5: a no-stream-failure environment records the first
event as the 15000 ms Supabase attempt, and a session with chunks of 500,
0 and 700 bytes resolves with a 1200-byte blob. -/
theorem recordStreamToBlob_fixed_duration_witness :
    (activatePanic
        { uid := "user9", hasProfile := true, isLocalUser := false,
          message := some "m", hasStream := true,
          ctxLocation := some { latitude := 1, longitude := 2 } }
        { getLoc := .error "x", supaUpload := .error "x", fbUpload := .error "x",
          createAlert := .error "x", notifLog := .error "x",
          supaInsert := .throws "x",
          backend := { isDevHost := true, fetchResult := .error "x" }, now := 7 }
        initPanicState).events.head? =
      some (PanicEvent.supaUploadAttempt "first_bucket" 15000) ∧
    (recordStreamToBlob 15000 [500, 0, 700]).settled = some (.ok 1200) := by
  have h := recordStreamToBlob_fixed_duration 15000 [500, 0, 700]
    { uid := "user9", hasProfile := true, isLocalUser := false,
      message := some "m", hasStream := true,
      ctxLocation := some { latitude := 1, longitude := 2 } }
    { getLoc := .error "x", supaUpload := .error "x", fbUpload := .error "x",
      createAlert := .error "x", notifLog := .error "x",
      supaInsert := .throws "x",
      backend := { isDevHost := true, fetchResult := .error "x" }, now := 7 }
    initPanicState { latitude := 1, longitude := 2 }
  refine ⟨h.1 rfl rfl rfl rfl, ?_⟩
  have h5 := h.2.2.2.2.2 (by decide)
  rw [h5]
  decide

/-- State, outcome, events and toasts of `panicMain` in terms of the video
section and the rest of the flow. -/
lemma panicMain_parts (inp : PanicInput) (env : PanicEnv) (loc : Loc)
    (st : PanicState) :
    (panicMain inp env loc st).state =
      (panicAfterVideo inp env loc (videoPhase inp.hasStream env).1 st).1 ∧
    (panicMain inp env loc st).outcome =
      (panicAfterVideo inp env loc (videoPhase inp.hasStream env).1 st).2.1 ∧
    (panicMain inp env loc st).events =
      (videoPhase inp.hasStream env).2.1 ++
        (panicAfterVideo inp env loc (videoPhase inp.hasStream env).1 st).2.2.1 ∧
    (panicMain inp env loc st).toasts =
      (videoPhase inp.hasStream env).2.2 ++
        (panicAfterVideo inp env loc (videoPhase inp.hasStream env).1 st).2.2.2 := by
  unfold panicMain
  rcases h : videoPhase inp.hasStream env with ⟨vd, vevs, vts⟩
  rcases h2 : panicAfterVideo inp env loc vd st with ⟨st', out, evs, ts⟩
  simp [h, h2]

/-- The first event after the video section is the alert-record write of
the active mode. -/
lemma panicAfterVideo_head (inp : PanicInput) (env : PanicEnv) (loc : Loc)
    (vd : VideoData) (st : PanicState) :
    (panicAfterVideo inp env loc vd st).2.2.1.head? =
      some (if isLocalMode inp then
        PanicEvent.localSave ("local_sos_" ++ toString env.now) (mkSOSData inp vd loc)
      else PanicEvent.firestoreCreate (mkSOSData inp vd loc)) := by
  unfold panicAfterVideo localPersist firebasePersist panicCatch
  by_cases hlm : isLocalMode inp <;>
    rcases hca : env.createAlert with ec | aid <;>
    rcases hb : sendPanicAlertToBackend env.backend with ⟨rb, bts⟩ <;>
    rcases rb with eb | ub <;>
    simp only [hlm, hca, hb, if_true, if_false] <;>
    rfl

/-- A successful Supabase upload with a truthy URL fills the video data
with that URL and the `supabase` tag. -/
lemma videoPhase_supa_success (env : PanicEnv) (u : Option String)
    (h : env.supaUpload = .ok u) (hu : jsFalsy u = false) :
    (videoPhase true env).1 = { videoUrl := u, uploadedTo := some Store.supabase } := by
  unfold videoPhase
  simp [h, hu]

/-- When the Supabase attempt fails, a Firebase fallback returning a
truthy URL fills the video data with that URL and the `firebase` tag. -/
lemma videoPhase_fb_success (env : PanicEnv) (u : Option String)
    (hs : supaAttemptFailed env = true)
    (h : env.fbUpload = .ok u) (hu : jsFalsy u = false) :
    (videoPhase true env).1 = { videoUrl := u, uploadedTo := some Store.firebase } := by
  unfold videoPhase fbFallback
  unfold supaAttemptFailed at hs
  rcases henv : env.supaUpload with e | u2
  · simp [h, hu]
  · rw [henv] at hs
    simp only [] at hs
    simp [hs, h, hu]

/-- When both attempts fail the video data keeps `videoUrl` and
`uploadedTo` null. -/
lemma videoPhase_both_fail (env : PanicEnv)
    (hs : supaAttemptFailed env = true) (hf : fbAttemptFailed env = true) :
    (videoPhase true env).1 = { videoUrl := none, uploadedTo := none } := by
  unfold videoPhase fbFallback
  unfold supaAttemptFailed at hs
  unfold fbAttemptFailed at hf
  rcases henv : env.supaUpload with e | u2
  · rcases henv2 : env.fbUpload with e2 | u3
    · simp
    · rw [henv2] at hf
      simp only [] at hf
      simp [hf]
  · rw [henv] at hs
    simp only [] at hs
    rcases henv2 : env.fbUpload with e2 | u3
    · simp [hs]
    · rw [henv2] at hf
      simp only [] at hf
      simp [hs, hf]

/-- Claim C1: with a stream present (past the guard and location steps),
`activatePanic` attempts the Supabase upload first (it is the first
external event); the Firebase upload is attempted if and only if the
Supabase attempt threw or returned no video URL; if both fail, the
activation continues and still issues the alert-record write with
`videoUrl` null; and `uploadedTo` is `supabase` or `firebase` according to
which upload succeeded, and null when both fail. -/
theorem activatePanic_upload_fallback (inp : PanicInput) (env : PanicEnv)
    (st0 : PanicState) (loc : Loc)
    (hg1 : (inp.uid == "") = false) (hg2 : inp.hasProfile = true)
    (hloc : inp.ctxLocation = some loc) (hstream : inp.hasStream = true) :
    ((activatePanic inp env st0).events.head? =
      some (PanicEvent.supaUploadAttempt "first_bucket" 15000)) ∧
    ((PanicEvent.fbUploadAttempt ∈ (activatePanic inp env st0).events) ↔
      supaAttemptFailed env = true) ∧
    (supaAttemptFailed env = true → fbAttemptFailed env = true →
      ∃ e ∈ (activatePanic inp env st0).events,
        alertWriteData e =
          some (mkSOSData inp { videoUrl := none, uploadedTo := none } loc)) ∧
    (mkSOSData inp { videoUrl := none, uploadedTo := none } loc).videoUrl = none ∧
    (∀ u, env.supaUpload = .ok u → jsFalsy u = false →
      (videoPhase true env).1 = { videoUrl := u, uploadedTo := some Store.supabase }) ∧
    (∀ u, supaAttemptFailed env = true → env.fbUpload = .ok u → jsFalsy u = false →
      (videoPhase true env).1 = { videoUrl := u, uploadedTo := some Store.firebase }) ∧
    (supaAttemptFailed env = true → fbAttemptFailed env = true →
      (videoPhase true env).1 = { videoUrl := none, uploadedTo := none }) := by
  rw [activatePanic_eq_main inp env st0 loc hg1 hg2 hloc]
  obtain ⟨hst, hoc, hev, hts⟩ := panicMain_parts inp env loc
    { st0 with timer := timerStep .actEnter st0.timer, isProcessing := true }
  refine ⟨?_, ?_, fun hs hf => ?_, rfl,
    fun u h hu => videoPhase_supa_success env u h hu,
    fun u hs h hu => videoPhase_fb_success env u hs h hu,
    fun hs hf => videoPhase_both_fail env hs hf⟩
  · rw [hev, hstream, videoPhase_events_true env]
    by_cases hsf : supaAttemptFailed env = true <;> simp [hsf]
  · rw [hev, hstream, videoPhase_events_true env]
    constructor
    · intro hmem
      rcases List.mem_append.mp hmem with hv | hr
      · by_cases hsf : supaAttemptFailed env = true
        · exact hsf
        · simp [hsf] at hv
      · have hall := panicAfterVideo_no_upload inp env loc
          (videoPhase true env).1
          { st0 with timer := timerStep .actEnter st0.timer, isProcessing := true }
        have := List.all_eq_true.mp hall _ hr
        simp [isUploadEvent] at this
    · intro hsf
      simp [hsf]
  · -- both attempts failed: the write event still appears, with null video
    rw [hev, hstream]
    have hvd := videoPhase_both_fail env hs hf
    rcases hh : (panicAfterVideo inp env loc (videoPhase true env).1
        { st0 with timer := timerStep .actEnter st0.timer, isProcessing := true }).2.2.1
      with _ | ⟨w, rest⟩
    · have := panicAfterVideo_head inp env loc (videoPhase true env).1
        { st0 with timer := timerStep .actEnter st0.timer, isProcessing := true }
      rw [hh] at this
      cases this
    · have hhead := panicAfterVideo_head inp env loc (videoPhase true env).1
        { st0 with timer := timerStep .actEnter st0.timer, isProcessing := true }
      rw [hh] at hhead
      injection hhead with hw
      refine ⟨w, by simp [hh], ?_⟩
      rw [hw, hvd]
      by_cases hlm : isLocalMode inp <;> simp [hlm, alertWriteData]

/-- Witness for C1: an environment in which both uploads fail still
activates, with the alert-write event carrying a null video URL. -/
theorem activatePanic_upload_fallback_witness :
    ((activatePanic
        { uid := "w1", hasProfile := true, isLocalUser := false, message := none,
          hasStream := true, ctxLocation := some { latitude := 3, longitude := 4 } }
        { getLoc := .error "x", supaUpload := .error "supa down",
          fbUpload := .error "fb down", createAlert := .ok (some "a1"),
          notifLog := .ok (), supaInsert := .okResult "r1",
          backend := { isDevHost := true, fetchResult := .error "x" }, now := 42 }
        initPanicState).events.head? =
      some (PanicEvent.supaUploadAttempt "first_bucket" 15000)) ∧
    (PanicEvent.fbUploadAttempt ∈ (activatePanic
        { uid := "w1", hasProfile := true, isLocalUser := false, message := none,
          hasStream := true, ctxLocation := some { latitude := 3, longitude := 4 } }
        { getLoc := .error "x", supaUpload := .error "supa down",
          fbUpload := .error "fb down", createAlert := .ok (some "a1"),
          notifLog := .ok (), supaInsert := .okResult "r1",
          backend := { isDevHost := true, fetchResult := .error "x" }, now := 42 }
        initPanicState).events) ∧
    (videoPhase true
        { getLoc := .error "x", supaUpload := .error "supa down",
          fbUpload := .error "fb down", createAlert := .ok (some "a1"),
          notifLog := .ok (), supaInsert := .okResult "r1",
          backend := { isDevHost := true, fetchResult := .error "x" }, now := 42 }).1 =
      { videoUrl := none, uploadedTo := none } := by
  have h := activatePanic_upload_fallback
    { uid := "w1", hasProfile := true, isLocalUser := false, message := none,
      hasStream := true, ctxLocation := some { latitude := 3, longitude := 4 } }
    { getLoc := .error "x", supaUpload := .error "supa down",
      fbUpload := .error "fb down", createAlert := .ok (some "a1"),
      notifLog := .ok (), supaInsert := .okResult "r1",
      backend := { isDevHost := true, fetchResult := .error "x" }, now := 42 }
    initPanicState { latitude := 3, longitude := 4 } rfl rfl rfl rfl
  exact ⟨h.1, h.2.1.mpr rfl, h.2.2.2.2.2.2 rfl rfl⟩

/-- The video section never produces an empty-string URL (a falsy URL is
turned into a throw at lines 305/323), so the `|| null` of the insert
payload is the identity on it. -/
lemma videoPhase_jsOrNull (hasStream : Bool) (env : PanicEnv) :
    jsOrNull ((videoPhase hasStream env).1.videoUrl) =
      (videoPhase hasStream env).1.videoUrl := by
  cases hasStream with
  | false => rfl
  | true =>
      unfold videoPhase fbFallback
      rcases h : env.supaUpload with e | u
      · rcases h2 : env.fbUpload with e2 | u2
        · rfl
        · by_cases hf : jsFalsy u2 = true <;> simp [hf, jsOrNull]
      · by_cases hf : jsFalsy u = true
        · rcases h2 : env.fbUpload with e2 | u2
          · simp [hf, jsOrNull]
          · by_cases hf2 : jsFalsy u2 = true <;> simp [hf, hf2, jsOrNull]
        · simp [hf, jsOrNull]

/-- What a completed Firebase-mode run of the post-video flow implies: the
Firestore create succeeded with the returned alert id, the create and the
relational insert attempt (with the payload built from the same alert
data) are among its events, and the relational table grew exactly by the
effect of the insert outcome. -/
lemma panicAfterVideo_firebase_completed (inp : PanicInput) (env : PanicEnv)
    (loc : Loc) (vd : VideoData) (st : PanicState)
    (hmode : isLocalMode inp = false) (aid : Option String)
    (hout : (panicAfterVideo inp env loc vd st).2.1 = .completed aid) :
    env.createAlert = .ok aid ∧
    PanicEvent.firestoreCreate (mkSOSData inp vd loc) ∈
      (panicAfterVideo inp env loc vd st).2.2.1 ∧
    PanicEvent.supaInsertAttempt (mkInsertPayload inp.uid (mkSOSData inp vd loc)) ∈
      (panicAfterVideo inp env loc vd st).2.2.1 ∧
    (panicAfterVideo inp env loc vd st).1.sosTable =
      (applySupaInsert (mkInsertPayload inp.uid (mkSOSData inp vd loc))
        env.supaInsert st).sosTable := by
  unfold panicAfterVideo firebasePersist panicCatch at hout ⊢
  rcases hca : env.createAlert with ec | aid2 <;>
    rcases hb : sendPanicAlertToBackend env.backend with ⟨rb, bts⟩ <;>
    rcases rb with eb | ub <;>
    simp only [hmode, hca, hb, if_false, Bool.false_eq_true, if_neg] at hout ⊢ <;>
    first
      | (exact PanicOutcome.noConfusion hout)
      | (injection hout with haid
         subst haid
         exact ⟨rfl, by simp, by simp, by first | rfl | trivial⟩)

/-- Claim C2: in Firebase (non-local) mode, a successful activation issues
both writes: the Firestore SOS alert create, and the `sos_alerts` insert
whose payload carries the same `user_id` (the Firebase uid), `message`,
`video_url` and location fields as the created alert data, with status
`pending` (the analysis columns are absent from the payload, so the
database leaves them null); when the insert outcome is a row, the
relational table has grown by exactly that payload. -/
theorem activatePanic_dual_write (inp : PanicInput) (env : PanicEnv)
    (st0 : PanicState) (loc : Loc) (aid : Option String)
    (hg1 : (inp.uid == "") = false) (hg2 : inp.hasProfile = true)
    (hloc : inp.ctxLocation = some loc)
    (hmode : isLocalMode inp = false)
    (hout : (activatePanic inp env st0).outcome = .completed aid) :
    ∃ data payload,
      PanicEvent.firestoreCreate data ∈ (activatePanic inp env st0).events ∧
      PanicEvent.supaInsertAttempt payload ∈ (activatePanic inp env st0).events ∧
      payload.user_id = data.userId ∧
      payload.user_id = inp.uid ∧
      payload.message = data.message ∧
      payload.video_url = data.videoUrl ∧
      payload.location_latitude = data.location.latitude ∧
      payload.location_longitude = data.location.longitude ∧
      payload.location_address = data.location.address ∧
      payload.status = "pending" ∧
      (∀ rid, env.supaInsert = .okResult rid →
        (activatePanic inp env st0).state.sosTable = st0.sosTable ++ [payload]) := by
  rw [activatePanic_eq_main inp env st0 loc hg1 hg2 hloc] at hout ⊢
  obtain ⟨hst, hoc, hev, hts⟩ := panicMain_parts inp env loc
    { st0 with timer := timerStep .actEnter st0.timer, isProcessing := true }
  rw [hoc] at hout
  obtain ⟨hca, hmem1, hmem2, htab⟩ := panicAfterVideo_firebase_completed inp env loc
    (videoPhase inp.hasStream env).1
    { st0 with timer := timerStep .actEnter st0.timer, isProcessing := true }
    hmode aid hout
  refine ⟨mkSOSData inp (videoPhase inp.hasStream env).1 loc,
    mkInsertPayload inp.uid (mkSOSData inp (videoPhase inp.hasStream env).1 loc),
    ?_, ?_, rfl, rfl, rfl, ?_, rfl, rfl, rfl, rfl, fun rid hrid => ?_⟩
  · rw [hev]; exact List.mem_append_right _ hmem1
  · rw [hev]; exact List.mem_append_right _ hmem2
  · exact videoPhase_jsOrNull inp.hasStream env
  · rw [hst, htab]
    simp [applySupaInsert, hrid]

/-- Witness for C2: a concrete Firebase-mode success run writes to both
backends with matching fields. -/
theorem activatePanic_dual_write_witness :
    ∃ data payload,
      PanicEvent.firestoreCreate data ∈ (activatePanic
        { uid := "fbu", hasProfile := true, isLocalUser := false,
          message := some "help", hasStream := true,
          ctxLocation := some { latitude := 10, longitude := 20 } }
        { getLoc := .error "x", supaUpload := .ok (some "https://supa/v.mp4"),
          fbUpload := .error "x", createAlert := .ok (some "alert1"),
          notifLog := .ok (), supaInsert := .okResult "row1",
          backend := { isDevHost := true, fetchResult := .error "x" }, now := 5 }
        initPanicState).events ∧
      PanicEvent.supaInsertAttempt payload ∈ (activatePanic
        { uid := "fbu", hasProfile := true, isLocalUser := false,
          message := some "help", hasStream := true,
          ctxLocation := some { latitude := 10, longitude := 20 } }
        { getLoc := .error "x", supaUpload := .ok (some "https://supa/v.mp4"),
          fbUpload := .error "x", createAlert := .ok (some "alert1"),
          notifLog := .ok (), supaInsert := .okResult "row1",
          backend := { isDevHost := true, fetchResult := .error "x" }, now := 5 }
        initPanicState).events ∧
      payload.user_id = data.userId ∧
      payload.user_id = "fbu" ∧
      payload.message = data.message ∧
      payload.video_url = data.videoUrl ∧
      payload.location_latitude = data.location.latitude ∧
      payload.location_longitude = data.location.longitude ∧
      payload.location_address = data.location.address ∧
      payload.status = "pending" ∧
      (∀ rid, SupaInsertOutcome.okResult "row1" = SupaInsertOutcome.okResult rid →
        (activatePanic
          { uid := "fbu", hasProfile := true, isLocalUser := false,
            message := some "help", hasStream := true,
            ctxLocation := some { latitude := 10, longitude := 20 } }
          { getLoc := .error "x", supaUpload := .ok (some "https://supa/v.mp4"),
            fbUpload := .error "x", createAlert := .ok (some "alert1"),
            notifLog := .ok (), supaInsert := .okResult "row1",
            backend := { isDevHost := true, fetchResult := .error "x" }, now := 5 }
          initPanicState).state.sosTable = [] ++ [payload]) :=
  activatePanic_dual_write
    { uid := "fbu", hasProfile := true, isLocalUser := false,
      message := some "help", hasStream := true,
      ctxLocation := some { latitude := 10, longitude := 20 } }
    { getLoc := .error "x", supaUpload := .ok (some "https://supa/v.mp4"),
      fbUpload := .error "x", createAlert := .ok (some "alert1"),
      notifLog := .ok (), supaInsert := .okResult "row1",
      backend := { isDevHost := true, fetchResult := .error "x" }, now := 5 }
    initPanicState { latitude := 10, longitude := 20 } (some "alert1")
    rfl rfl rfl rfl (by decide)

/-- Claim C3 (counterexample): on a production host (not `localhost`, not
`fly.dev`), a failing backend notification rethrows out of
`sendPanicAlertToBackend` (lines 571-576), so `activatePanic` lands in its
outer catch: the activation ends `failed`, `isActivated` is never set, no
reset timer is started, and the failure toast is raised - the remaining
steps of the alert are not completed, refuting the claim that no failure
of the backend notification aborts the flow.  (Every other step of this
run succeeds.) -/
theorem activatePanic_backend_failure_aborts :
    (activatePanic
        { uid := "fbu2", hasProfile := true, isLocalUser := false,
          message := some "m", hasStream := false,
          ctxLocation := some { latitude := 1, longitude := 2 } }
        { getLoc := .error "x", supaUpload := .ok (some "https://supa/v.mp4"),
          fbUpload := .ok (some "https://fb/v.mp4"), createAlert := .ok (some "a2"),
          notifLog := .ok (), supaInsert := .okResult "row2",
          backend := { isDevHost := false, fetchResult := .error "network down" },
          now := 9 }
        initPanicState).outcome = .failed "network down" ∧
    (activatePanic
        { uid := "fbu2", hasProfile := true, isLocalUser := false,
          message := some "m", hasStream := false,
          ctxLocation := some { latitude := 1, longitude := 2 } }
        { getLoc := .error "x", supaUpload := .ok (some "https://supa/v.mp4"),
          fbUpload := .ok (some "https://fb/v.mp4"), createAlert := .ok (some "a2"),
          notifLog := .ok (), supaInsert := .okResult "row2",
          backend := { isDevHost := false, fetchResult := .error "network down" },
          now := 9 }
        initPanicState).state.isActivated = false ∧
    "SOS Alert Failed" ∈ (activatePanic
        { uid := "fbu2", hasProfile := true, isLocalUser := false,
          message := some "m", hasStream := false,
          ctxLocation := some { latitude := 1, longitude := 2 } }
        { getLoc := .error "x", supaUpload := .ok (some "https://supa/v.mp4"),
          fbUpload := .ok (some "https://fb/v.mp4"), createAlert := .ok (some "a2"),
          notifLog := .ok (), supaInsert := .okResult "row2",
          backend := { isDevHost := false, fetchResult := .error "network down" },
          now := 9 }
        initPanicState).toasts := by
  decide

/-- The backend send succeeds on a dev host, and on a production host with
an ok fetch. -/
lemma sendBackend_ok (benv : BackendEnv)
    (hb : benv.isDevHost = true ∨
      ∃ resp, benv.fetchResult = .ok resp ∧ resp.ok = true) :
    ∃ ts, sendPanicAlertToBackend benv = (.ok (), ts) := by
  unfold sendPanicAlertToBackend
  rcases hb with hd | ⟨resp, hr, hok⟩
  · rw [hd]
    exact ⟨_, rfl⟩
  · by_cases hd : benv.isDevHost = true
    · rw [hd]
      exact ⟨_, rfl⟩
    · rw [Bool.not_eq_true] at hd
      rw [hd, hr]
      simp [hok]

/-- The post-video flow completes (for any upload, notification-log and
relational-insert outcomes) whenever the persistence branch cannot throw -
always in local mode, and with a resolving `createSOSAlert` in Firebase
mode - and the backend send resolves. -/
lemma panicAfterVideo_completes (inp : PanicInput) (env : PanicEnv) (loc : Loc)
    (vd : VideoData) (st : PanicState)
    (hca : isLocalMode inp = false → ∃ a, env.createAlert = .ok a)
    (hok : ∃ ts, sendPanicAlertToBackend env.backend = (.ok (), ts)) :
    ∃ a, (panicAfterVideo inp env loc vd st).2.1 = .completed a := by
  obtain ⟨ts, hts⟩ := hok
  unfold panicAfterVideo
  by_cases hlm : isLocalMode inp
  · rcases hlp : localPersist inp.uid env (mkSOSData inp vd loc) st with ⟨st', aidL, evs⟩
    simp only [hlm, if_true, hlp, hts]
    exact ⟨some aidL, rfl⟩
  · rw [Bool.not_eq_true] at hlm
    obtain ⟨a, ha⟩ := hca hlm
    unfold firebasePersist
    simp only [hlm, ha, hts, Bool.false_eq_true, if_false]
    exact ⟨a, rfl⟩

/-- With a stream present and both uploads failing, the last-resort toast
is raised by the video section. -/
lemma videoPhase_bothfail_toast (env : PanicEnv)
    (hs : supaAttemptFailed env = true) (hf : fbAttemptFailed env = true) :
    "Video Upload Failed" ∈ (videoPhase true env).2.2 := by
  unfold videoPhase fbFallback
  unfold supaAttemptFailed at hs
  unfold fbAttemptFailed at hf
  rcases henv : env.supaUpload with e | u2
  · rcases henv2 : env.fbUpload with e2 | u3
    · simp
    · rw [henv2] at hf
      simp only [] at hf
      simp [hf]
  · rw [henv] at hs
    simp only [] at hs
    rcases henv2 : env.fbUpload with e2 | u3
    · simp [hs]
    · rw [henv2] at hf
      simp only [] at hf
      simp [hs, hf]

/-- Claim C3 (amended): during panic activation the failures of the video
upload (either store), the `sos_alerts` insert, and the notification log
never abort the flow, and are surfaced via toasts: for arbitrary outcomes
of those calls the activation still completes, provided the location step,
the Firestore create (in Firebase mode) and the backend send (a dev host,
or an ok fetch) succeed.  A failing backend notification on a production
host does abort the remaining steps (see the counterexample), while on a
dev host it is swallowed. -/
theorem activatePanic_best_effort (inp : PanicInput) (env : PanicEnv)
    (st0 : PanicState) (loc : Loc)
    (hg1 : (inp.uid == "") = false) (hg2 : inp.hasProfile = true)
    (hloc : inp.ctxLocation = some loc)
    (hca : isLocalMode inp = false → ∃ a, env.createAlert = .ok a)
    (hb : env.backend.isDevHost = true ∨
      ∃ resp, env.backend.fetchResult = .ok resp ∧ resp.ok = true) :
    (∃ a, (activatePanic inp env st0).outcome = .completed a) ∧
    (inp.hasStream = true → supaAttemptFailed env = true → fbAttemptFailed env = true →
      "Video Upload Failed" ∈ (activatePanic inp env st0).toasts) ∧
    (inp.hasStream = false →
      "Video Recording Failed" ∈ (activatePanic inp env st0).toasts) := by
  rw [activatePanic_eq_main inp env st0 loc hg1 hg2 hloc]
  obtain ⟨hst, hoc, hev, hts⟩ := panicMain_parts inp env loc
    { st0 with timer := timerStep .actEnter st0.timer, isProcessing := true }
  refine ⟨?_, fun hstream hs hf => ?_, fun hstream => ?_⟩
  · rw [hoc]
    exact panicAfterVideo_completes inp env loc (videoPhase inp.hasStream env).1
      { st0 with timer := timerStep .actEnter st0.timer, isProcessing := true }
      hca (sendBackend_ok env.backend hb)
  · rw [hts, hstream]
    exact List.mem_append_left _ (videoPhase_bothfail_toast env hs hf)
  · rw [hts, hstream]
    simp [videoPhase]

/-- Witness for C3 (amended): with both uploads, the notification log and
the relational insert all failing, a Firebase-mode activation on a dev
host still completes, surfacing the upload failure via toast. -/
theorem activatePanic_best_effort_witness :
    (∃ a, (activatePanic
        { uid := "fbu3", hasProfile := true, isLocalUser := false,
          message := none, hasStream := true,
          ctxLocation := some { latitude := 8, longitude := 9 } }
        { getLoc := .error "x", supaUpload := .error "supa down",
          fbUpload := .error "fb down", createAlert := .ok (some "a3"),
          notifLog := .error "log down", supaInsert := .throws "insert down",
          backend := { isDevHost := true, fetchResult := .error "x" }, now := 11 }
        initPanicState).outcome = .completed a) ∧
    "Video Upload Failed" ∈ (activatePanic
        { uid := "fbu3", hasProfile := true, isLocalUser := false,
          message := none, hasStream := true,
          ctxLocation := some { latitude := 8, longitude := 9 } }
        { getLoc := .error "x", supaUpload := .error "supa down",
          fbUpload := .error "fb down", createAlert := .ok (some "a3"),
          notifLog := .error "log down", supaInsert := .throws "insert down",
          backend := { isDevHost := true, fetchResult := .error "x" }, now := 11 }
        initPanicState).toasts := by
  have h := activatePanic_best_effort
    { uid := "fbu3", hasProfile := true, isLocalUser := false,
      message := none, hasStream := true,
      ctxLocation := some { latitude := 8, longitude := 9 } }
    { getLoc := .error "x", supaUpload := .error "supa down",
      fbUpload := .error "fb down", createAlert := .ok (some "a3"),
      notifLog := .error "log down", supaInsert := .throws "insert down",
      backend := { isDevHost := true, fetchResult := .error "x" }, now := 11 }
    initPanicState { latitude := 8, longitude := 9 }
    rfl rfl rfl (fun _ => ⟨some "a3", rfl⟩) (Or.inl rfl)
  exact ⟨h.1, h.2.1 rfl rfl rfl⟩

/-- `applySupaInsert` only touches the relational table. -/
lemma applySupaInsert_other (p : InsertPayload) (o : SupaInsertOutcome)
    (s : PanicState) :
    (applySupaInsert p o s).localStore = s.localStore ∧
    (applySupaInsert p o s).panicHistoryLocal = s.panicHistoryLocal ∧
    (applySupaInsert p o s).realtimeAlertsLocal = s.realtimeAlertsLocal := by
  rcases o <;> exact ⟨rfl, rfl, rfl⟩

/-- The post-video flow in local mode: the alert entry is prepended to the
stored list, both provider lists are set to it, the local save event is
issued, and the Firestore create never is. -/
lemma panicAfterVideo_local (inp : PanicInput) (env : PanicEnv) (loc : Loc)
    (vd : VideoData) (st : PanicState) (hmode : isLocalMode inp = true) :
    (panicAfterVideo inp env loc vd st).1.localStore =
      { id := "local_sos_" ++ toString env.now, data := mkSOSData inp vd loc,
        timestampNow := env.now } :: st.localStore ∧
    (panicAfterVideo inp env loc vd st).1.panicHistoryLocal =
      (panicAfterVideo inp env loc vd st).1.localStore ∧
    (panicAfterVideo inp env loc vd st).1.realtimeAlertsLocal =
      (panicAfterVideo inp env loc vd st).1.localStore ∧
    PanicEvent.localSave ("local_sos_" ++ toString env.now) (mkSOSData inp vd loc) ∈
      (panicAfterVideo inp env loc vd st).2.2.1 ∧
    ∀ d, PanicEvent.firestoreCreate d ∉ (panicAfterVideo inp env loc vd st).2.2.1 := by
  unfold panicAfterVideo localPersist panicCatch
  obtain ⟨ha1, ha2, ha3⟩ := applySupaInsert_other
    (mkInsertPayload inp.uid (mkSOSData inp vd loc)) env.supaInsert
    { st with
      localStore := { id := "local_sos_" ++ toString env.now,
                      data := mkSOSData inp vd loc,
                      timestampNow := env.now } :: st.localStore
      panicHistoryLocal := { id := "local_sos_" ++ toString env.now,
                             data := mkSOSData inp vd loc,
                             timestampNow := env.now } :: st.localStore
      realtimeAlertsLocal := { id := "local_sos_" ++ toString env.now,
                               data := mkSOSData inp vd loc,
                               timestampNow := env.now } :: st.localStore }
  rcases hb : sendPanicAlertToBackend env.backend with ⟨rb, bts⟩
  rcases rb with eb | ub <;>
    simp only [hmode, if_true, hb] <;>
    exact ⟨by rw [ha1], by rw [ha2, ha1], by rw [ha3, ha1], by simp, by simp⟩

/-- Claim C6: for a local-mode user (`isLocalUser`, or a uid beginning
with `local_`), past the guard and location steps, the activation saves
the alert locally: the entry with id `local_sos_<Date.now()>` is prepended
to `local_sos_alerts`, `panicHistory` and `realtimeAlerts` are set to that
stored list, and the Firestore write path is never taken. -/
theorem activatePanic_local_mode (inp : PanicInput) (env : PanicEnv)
    (st0 : PanicState) (loc : Loc)
    (hg1 : (inp.uid == "") = false) (hg2 : inp.hasProfile = true)
    (hloc : inp.ctxLocation = some loc)
    (hmode : isLocalMode inp = true) :
    (activatePanic inp env st0).state.localStore =
      { id := "local_sos_" ++ toString env.now,
        data := mkSOSData inp (videoPhase inp.hasStream env).1 loc,
        timestampNow := env.now } :: st0.localStore ∧
    (activatePanic inp env st0).state.panicHistoryLocal =
      (activatePanic inp env st0).state.localStore ∧
    (activatePanic inp env st0).state.realtimeAlertsLocal =
      (activatePanic inp env st0).state.localStore ∧
    PanicEvent.localSave ("local_sos_" ++ toString env.now)
        (mkSOSData inp (videoPhase inp.hasStream env).1 loc) ∈
      (activatePanic inp env st0).events ∧
    ∀ d, PanicEvent.firestoreCreate d ∉ (activatePanic inp env st0).events := by
  rw [activatePanic_eq_main inp env st0 loc hg1 hg2 hloc]
  obtain ⟨hst, hoc, hev, hts⟩ := panicMain_parts inp env loc
    { st0 with timer := timerStep .actEnter st0.timer, isProcessing := true }
  obtain ⟨hl1, hl2, hl3, hl4, hl5⟩ := panicAfterVideo_local inp env loc
    (videoPhase inp.hasStream env).1
    { st0 with timer := timerStep .actEnter st0.timer, isProcessing := true } hmode
  refine ⟨by rw [hst, hl1], by rw [hst, hl2], by rw [hst, hl3], ?_, fun d hd => ?_⟩
  · rw [hev]
    exact List.mem_append_right _ hl4
  · rw [hev] at hd
    rcases List.mem_append.mp hd with hv | hr
    · -- the video section issues no Firestore create
      rcases hstream : inp.hasStream with _ | _
      · rw [hstream] at hv
        simp [videoPhase] at hv
      · rw [hstream] at hv
        rw [videoPhase_events_true env] at hv
        by_cases hsf : supaAttemptFailed env = true <;> simp [hsf] at hv
    · exact hl5 d hr

/-- Witness for C6: a concrete local-mode activation (uid prefixed
`local_`) saves locally and never writes Firestore. -/
theorem activatePanic_local_mode_witness :
    (activatePanic
        { uid := "local_7", hasProfile := true, isLocalUser := false,
          message := some "hi", hasStream := false,
          ctxLocation := some { latitude := 5, longitude := 6 } }
        { getLoc := .error "x", supaUpload := .error "x", fbUpload := .error "x",
          createAlert := .error "x", notifLog := .error "x",
          supaInsert := .okResult "r9",
          backend := { isDevHost := true, fetchResult := .error "x" }, now := 77 }
        initPanicState).state.localStore =
      [{ id := "local_sos_77",
         data := mkSOSData
           { uid := "local_7", hasProfile := true, isLocalUser := false,
             message := some "hi", hasStream := false,
             ctxLocation := some { latitude := 5, longitude := 6 } }
           (videoPhase false
             { getLoc := .error "x", supaUpload := .error "x", fbUpload := .error "x",
               createAlert := .error "x", notifLog := .error "x",
               supaInsert := .okResult "r9",
               backend := { isDevHost := true, fetchResult := .error "x" }, now := 77 }).1
           { latitude := 5, longitude := 6 },
         timestampNow := 77 }] ∧
    ∀ d, PanicEvent.firestoreCreate d ∉ (activatePanic
        { uid := "local_7", hasProfile := true, isLocalUser := false,
          message := some "hi", hasStream := false,
          ctxLocation := some { latitude := 5, longitude := 6 } }
        { getLoc := .error "x", supaUpload := .error "x", fbUpload := .error "x",
          createAlert := .error "x", notifLog := .error "x",
          supaInsert := .okResult "r9",
          backend := { isDevHost := true, fetchResult := .error "x" }, now := 77 }
        initPanicState).events := by
  have h := activatePanic_local_mode
    { uid := "local_7", hasProfile := true, isLocalUser := false,
      message := some "hi", hasStream := false,
      ctxLocation := some { latitude := 5, longitude := 6 } }
    { getLoc := .error "x", supaUpload := .error "x", fbUpload := .error "x",
      createAlert := .error "x", notifLog := .error "x",
      supaInsert := .okResult "r9",
      backend := { isDevHost := true, fetchResult := .error "x" }, now := 77 }
    initPanicState { latitude := 5, longitude := 6 } rfl rfl rfl rfl
  exact ⟨h.1, h.2.2.2.2⟩

end Drishti
